import Mathlib

/-!
# Arlon: cluster listing (`pkg/cluster/list.go`) and prerequisite checks (`cmd/verify/verify.go`)

A shallow embedding of two pieces of the repository.

* `cluster.List` talks to three external collaborators: the ArgoCD application
  service (`appIf.List`), the Kubernetes client factory
  (`kubernetes.NewForConfig`) and the secret API (`secrApi.List`).  They are
  embedded as a `World`: state-passing functions over an arbitrary state type
  `σ`, so that a collaborator may answer differently on every call.  The
  embedding threads the state through the calls in program order and records
  every call together with its answer in a trace, the way a recording mock
  would.  The theorems about a run are stated against what the `World` itself
  returns when called in program order (`NestedAnswers`, `AppQueriesAnswer`,
  `AllAnswer`), not against the recorded trace.
* Go `string` and `[]byte` values are embedded as `String`; a `[]byte` that can
  be `nil` is an `Option String`.  Go `error` values of `cluster.List` are
  embedded by their text (`%s` formats an error by its `Error()` text).
* Go `map[string]string` is an association list read with `mapIndex`, which
  yields the zero value `""` for an absent key, like a Go index expression.
-/

namespace Arlon

/-! ## Data model -/

/-- Go index expression `m[k]` on a `map[string]string`: the stored value, or the
zero value `""` when the key is absent. -/
def mapIndex (m : List (String × String)) (k : String) : String :=
  (List.lookup k m).getD ""

/-- Go index expression `m[k]` on a `map[string][]byte`: the stored slice, or the
`nil` slice (`none`) when the key is absent.  A key may also be stored with a
`nil` slice. -/
def dataIndex (m : List (String × Option String)) (k : String) : Option String :=
  (List.lookup k m).getD none

/-- Go conversion `string(b)` of a `[]byte`: the `nil` slice converts to `""`. -/
def bytesToString (b : Option String) : String :=
  b.getD ""

/-- An ArgoCD application, cut down to the fields `cluster.List` reads. -/
structure Application where
  Name : String
  Annotations : List (String × String) := []
  Labels : List (String × String) := []
  deriving DecidableEq, Repr

/-- A Kubernetes secret, cut down to the fields `cluster.List` reads. -/
structure Secret where
  Name : String
  Data : List (String × Option String) := []
  Annotations : List (String × String) := []
  deriving DecidableEq, Repr

/-- Modelled from the spec: the type declaration of `BaseClusterInfo` is not among
the sources; its four fields are the ones `cluster.List` fills in and the spec's
data model lists (`{Name, RepoUrl, RepoRevision, RepoPath}`). -/
structure BaseClusterInfo where
  Name : String := ""
  RepoUrl : String := ""
  RepoRevision : String := ""
  RepoPath : String := ""
  deriving DecidableEq, Repr

/-- Modelled from the spec: the type declaration of `Cluster` is not among the
sources; the fields are the ones `cluster.List` fills in and the spec's data
model lists.  `BaseCluster` is a pointer in Go, `none` stands for `nil`.  The
defaults are Go's zero values, used by a composite literal that leaves a field
out. -/
structure Cluster where
  Name : String := ""
  ClusterSpecName : String := ""
  ProfileName : String := ""
  BaseCluster : Option BaseClusterInfo := none
  IsExternal : Bool := false
  SecretName : String := ""
  deriving DecidableEq, Repr

/-- The package-level string constants `cluster.List` refers to whose
declarations are not among the sources (`common.ClusterSpecAnnotationKey`,
`common.ProfileAnnotationKey`, the four base-cluster annotation keys and the two
secret label selectors).  They are parameters of the embedding. -/
structure Keys where
  ClusterSpecAnnotationKey : String
  ProfileAnnotationKey : String
  baseClusterNameAnnotation : String
  baseClusterRepoUrlAnnotation : String
  baseClusterRepoRevisionAnnotation : String
  baseClusterRepoPathAnnotation : String
  argoClusterSecretTypeLabel : String
  externalClusterTypeLabel : String

/-! ## External collaborators -/

/-- The three fallible calls of `cluster.List`, as state-passing functions.
`appList sel` is `appIf.List` with `ApplicationQuery{Selector: sel}`;
`newForConfig cfg` is `kubernetes.NewForConfig(cfg)` (`some e` is a non-nil
error); `secretList ns sel` is `Secrets(ns).List` with `LabelSelector: sel`.
A call that returns a nil error returns a usable (non-nil) result. -/
structure World (σ κ : Type) where
  appList : String → σ → Except String (List Application) × σ
  newForConfig : κ → σ → Option String × σ
  secretList : String → String → σ → Except String (List Secret) × σ

/-- One recorded call of a collaborator with the answer it gave. -/
inductive Event where
  | appList (selector : String) (resp : Except String (List Application))
  | newForConfig (resp : Option String)
  | secretList (ns labelSelector : String) (resp : Except String (List Secret))

/-- Whether the recorded call is a call of `appIf.List`. -/
def Event.isAppList : Event → Bool
  | .appList _ _ => true
  | _ => false

/-- Whether the recorded call returned a non-nil error. -/
def Event.failed : Event → Bool
  | .appList _ (.error _) => true
  | .newForConfig (some _) => true
  | .secretList _ _ (.error _) => true
  | _ => false

/-- What one run of `cluster.List` leaves behind: the two return values
(`err = none` is a nil error), the collaborators' final state, the recorded
calls in program order, and the secret names passed to the verbosity-1
diagnostic `"cluster secret skipped because missing cluster name"`. -/
structure Run (σ : Type) where
  clist : List Cluster
  err : Option String
  state : σ
  trace : List Event
  logs : List String

/-! ## `cluster.List` -/

/-- Selector of the first query (list.go line 25). -/
def legacySelector : String := "managed-by=arlon,arlon-type=cluster"

/-- Selector of the second query (list.go line 38). -/
def nextGenSelector : String := "managed-by=arlon,arlon-type=cluster-app"

/-- Selector of the nested query for the cluster-app named `name` (list.go line 46). -/
def profileAppSelector (name : String) : String :=
  "managed-by=arlon,arlon-type=profile-app,arlon-cluster=" ++ name

/-- The composite literal appended in the first loop (list.go lines 30-34). -/
def legacyRecord (k : Keys) (a : Application) : Cluster :=
  { Name := a.Name
    ClusterSpecName := mapIndex a.Annotations k.ClusterSpecAnnotationKey
    ProfileName := mapIndex a.Annotations k.ProfileAnnotationKey }

/-- The `profileName` computed in the second loop (list.go lines 54-59): the
`arlon-profile` label of the first profile app when there is one, else `""`. -/
def profileNameOf (profileApps : List Application) : String :=
  match profileApps with
  | [] => ""
  | p :: _ => mapIndex p.Labels "arlon-profile"

/-- The composite literal appended in the second loop (list.go lines 60-69). -/
def nextGenRecord (k : Keys) (a : Application) (profileApps : List Application) : Cluster :=
  { Name := a.Name
    ProfileName := profileNameOf profileApps
    BaseCluster := some
      { Name := mapIndex a.Annotations k.baseClusterNameAnnotation
        RepoUrl := mapIndex a.Annotations k.baseClusterRepoUrlAnnotation
        RepoRevision := mapIndex a.Annotations k.baseClusterRepoRevisionAnnotation
        RepoPath := mapIndex a.Annotations k.baseClusterRepoPathAnnotation } }

/-- The composite literal appended in the third loop (list.go lines 90-95). -/
def externalRecord (k : Keys) (secr : Secret) : Cluster :=
  { Name := bytesToString (dataIndex secr.Data "name")
    ProfileName := mapIndex secr.Annotations k.ProfileAnnotationKey
    IsExternal := true
    SecretName := secr.Name }

/-- The first loop (list.go lines 29-35): one `append` per item. -/
def legacyPass (k : Keys) : List Application → List Cluster → List Cluster
  | [], clist => clist
  | a :: rest, clist => legacyPass k rest (clist ++ [legacyRecord k a])

/-- The second loop (list.go lines 42-70).  Every iteration issues the nested
query; a failure leaves the loop and the function at once (`.error` carries the
formatted message), otherwise one record is appended. -/
def nextGenPass {σ κ : Type} (k : Keys) (w : World σ κ) :
    List Application → List Cluster → σ → List Event →
      Except String (List Cluster) × σ × List Event
  | [], clist, s, tr => (.ok clist, s, tr)
  | a :: rest, clist, s, tr =>
    match w.appList (profileAppSelector a.Name) s with
    | (.error e, s') =>
      (.error ("failed to list profile apps associated with cluster " ++ a.Name ++ ": " ++ e),
        s', tr ++ [Event.appList (profileAppSelector a.Name) (.error e)])
    | (.ok profileApps, s') =>
      nextGenPass k w rest (clist ++ [nextGenRecord k a profileApps]) s'
        (tr ++ [Event.appList (profileAppSelector a.Name) (.ok profileApps)])

/-- The third loop (list.go lines 84-96).  The `if clusterName == nil` branch only
writes the diagnostic; control then reaches the `append` in either case. -/
def externalPass (k : Keys) : List Secret → List Cluster → List String →
    List Cluster × List String
  | [], clist, logs => (clist, logs)
  | secr :: rest, clist, logs =>
    let clusterName := dataIndex secr.Data "name"
    let logs := if clusterName = none then logs ++ [secr.Name] else logs
    externalPass k rest (clist ++ [externalRecord k secr]) logs

/-- The function `List` of package `cluster` (list.go lines 17-98). -/
def cluster.List {σ κ : Type} (k : Keys) (w : World σ κ) (config : κ) (argocdNs : String)
    (s0 : σ) : Run σ :=
  match w.appList legacySelector s0 with
  | (.error e, s1) =>
    { clist := [], err := some ("failed to list argocd applications: " ++ e), state := s1
      trace := [Event.appList legacySelector (.error e)], logs := [] }
  | (.ok apps, s1) =>
    let tr1 := [Event.appList legacySelector (.ok apps)]
    let clist := legacyPass k apps []
    match w.appList nextGenSelector s1 with
    | (.error e, s2) =>
      { clist := [], err := some ("failed to list next-gen clusters: " ++ e), state := s2
        trace := tr1 ++ [Event.appList nextGenSelector (.error e)], logs := [] }
    | (.ok apps, s2) =>
      match nextGenPass k w apps clist s2 (tr1 ++ [Event.appList nextGenSelector (.ok apps)]) with
      | (.error msg, s3, tr3) =>
        { clist := [], err := some msg, state := s3, trace := tr3, logs := [] }
      | (.ok clist, s3, tr3) =>
        match w.newForConfig config s3 with
        | (some e, s4) =>
          { clist := [], err := some ("failed to get kube client: " ++ e), state := s4
            trace := tr3 ++ [Event.newForConfig (some e)], logs := [] }
        | (none, s4) =>
          let sel := k.argoClusterSecretTypeLabel ++ "," ++ k.externalClusterTypeLabel
          match w.secretList argocdNs sel s4 with
          | (.error e, s5) =>
            { clist := [], err := some ("failed to list cluster secrets: " ++ e), state := s5
              trace := tr3 ++ [Event.newForConfig none, Event.secretList argocdNs sel (.error e)]
              logs := [] }
          | (.ok secrs, s5) =>
            let out := externalPass k secrs clist []
            { clist := out.1, err := none, state := s5
              trace := tr3 ++ [Event.newForConfig none, Event.secretList argocdNs sel (.ok secrs)]
              logs := out.2 }

/-! ## Reading a run -/

/-- The label selector of the secret query (list.go line 79). -/
def secretSelector (k : Keys) : String :=
  k.argoClusterSecretTypeLabel ++ "," ++ k.externalClusterTypeLabel

/-- The recorded nested query of cluster-app `a` that answered `profileApps`. -/
def profileAppEvent (a : Application) (profileApps : List Application) : Event :=
  Event.appList (profileAppSelector a.Name) (.ok profileApps)

/-- The calls a run records when every call succeeds: the legacy query answering
`legacy`, the next-gen query answering `nextGen`, one nested query per
cluster-app in order (the i-th answering `profs[i]`), the client construction,
and the secret query answering `secrs`. -/
def successTrace (k : Keys) (argocdNs : String) (legacy nextGen : List Application)
    (profs : List (List Application)) (secrs : List Secret) : List Event :=
  [Event.appList legacySelector (.ok legacy), Event.appList nextGenSelector (.ok nextGen)]
    ++ List.zipWith profileAppEvent nextGen profs
    ++ [Event.newForConfig none, Event.secretList argocdNs (secretSelector k) (.ok secrs)]

/-- The message `msg` is the one list.go formats for the failed call `ev`: a fixed
text naming the step, followed by the text of the error the call returned. -/
def Explains (k : Keys) (argocdNs : String) (ev : Event) (msg : String) : Prop :=
  (∃ e, ev = Event.appList legacySelector (.error e)
      ∧ msg = "failed to list argocd applications: " ++ e)
  ∨ (∃ e, ev = Event.appList nextGenSelector (.error e)
      ∧ msg = "failed to list next-gen clusters: " ++ e)
  ∨ (∃ name e, ev = Event.appList (profileAppSelector name) (.error e)
      ∧ msg = "failed to list profile apps associated with cluster " ++ name ++ ": " ++ e)
  ∨ (∃ e, ev = Event.newForConfig (some e) ∧ msg = "failed to get kube client: " ++ e)
  ∨ (∃ e, ev = Event.secretList argocdNs (secretSelector k) (.error e)
      ∧ msg = "failed to list cluster secrets: " ++ e)

/-- How many of the three source markers a record carries: a non-empty
`ClusterSpecName`, a non-nil `BaseCluster`, a true `IsExternal`. -/
def markerCount (c : Cluster) : Nat :=
  (if c.ClusterSpecName = "" then 0 else 1) + (if c.BaseCluster = none then 0 else 1)
    + (if c.IsExternal then 1 else 0)

/-- Text `sub` occurs in text `msg`. -/
def Mentions (msg sub : String) : Prop :=
  sub.toList <:+: msg.toList

/-- The secret's data has a `name` key (whatever is stored under it). -/
def hasNameKey (secr : Secret) : Bool :=
  (List.lookup "name" secr.Data).isSome

/-! ## What the collaborators answer

The predicates below speak about a `World` alone: they say what its functions
return when they are called in program order, and mention neither
`cluster.List` nor the trace a run records. -/

/-- The nested profile-app queries, asked one after the other for the cluster-apps
`apps` with the collaborators starting in state `s`, all succeed: the query for
the i-th cluster-app returns the list `profs[i]`, and the last one leaves the
collaborators in state `s'`. -/
inductive NestedAnswers {σ κ : Type} (w : World σ κ) :
    List Application → σ → List (List Application) → σ → Prop where
  | nil (s : σ) : NestedAnswers w [] s [] s
  | cons {a : Application} {rest : List Application} {s sm s' : σ}
      {ps : List Application} {pss : List (List Application)}
      (hq : w.appList ("managed-by=arlon,arlon-type=profile-app,arlon-cluster=" ++ a.Name) s
        = (Except.ok ps, sm))
      (hrest : NestedAnswers w rest sm pss s') :
      NestedAnswers w (a :: rest) s (ps :: pss) s'

/-- Every application query succeeds when asked in program order from state `s0`:
the legacy query returns `legacy`, then the next-gen query returns `nextGen`,
then the nested queries of the cluster-apps return `profs`, leaving state `s3`. -/
def AppQueriesAnswer {σ κ : Type} (w : World σ κ) (s0 : σ) (legacy nextGen : List Application)
    (profs : List (List Application)) (s3 : σ) : Prop :=
  ∃ s1 s2, w.appList "managed-by=arlon,arlon-type=cluster" s0 = (Except.ok legacy, s1) ∧
    w.appList "managed-by=arlon,arlon-type=cluster-app" s1 = (Except.ok nextGen, s2) ∧
    NestedAnswers w nextGen s2 profs s3

/-- Every call succeeds when made in program order from state `s0`: the
application queries as in `AppQueriesAnswer`, then the client construction for
`config`, then the secret query in namespace `argocdNs`, which returns `secrs`
and leaves state `s5`. -/
def AllAnswer {σ κ : Type} (k : Keys) (w : World σ κ) (config : κ) (argocdNs : String) (s0 : σ)
    (legacy nextGen : List Application) (profs : List (List Application))
    (secrs : List Secret) (s5 : σ) : Prop :=
  ∃ s3 s4, AppQueriesAnswer w s0 legacy nextGen profs s3 ∧
    w.newForConfig config s3 = (none, s4) ∧
    w.secretList argocdNs (k.argoClusterSecretTypeLabel ++ "," ++ k.externalClusterTypeLabel) s4
      = (Except.ok secrs, s5)

/-! ## Prerequisite checks (`cmd/verify/verify.go`) -/

namespace verify

/-- The error values the checks can return: the eight package-level sentinels
(verify.go lines 11-20), each a distinct value created by `errors.New`, and
`exec text`, an error value produced by package `os/exec` (never identical to a
sentinel). -/
inductive GoError where
  | ErrKubectlInstall
  | ErrClusterInfo
  | ErrArgoCD
  | ErrArgoCDAuthToken
  | ErrGit
  | ErrArlonNs
  | ErrCapi
  | ErrCapiCP
  | exec (text : String)
  deriving DecidableEq, Repr

/-- Whether the error is one of the package's declared sentinels. -/
def GoError.isSentinel : GoError → Bool
  | .exec _ => false
  | _ => true

/-- The outcomes of the external commands.  `lookPath file` is the error of
`exec.LookPath(file)`; `output argv` is the error of `exec.Command(argv...).Output()`;
`pipeOutput producer consumer` is the error of `consumer.Output()` after
`producer` was started with its standard output piped into `consumer`.
`none` is a nil error, `some text` an `os/exec` error with that text. -/
structure Host where
  lookPath : String → Option String
  output : List String → Option String
  pipeOutput : List String → List String → Option String

/-- The function `verifyKubectl` (verify.go lines 84-97). -/
def verifyKubectl (h : Host) : Bool × Option GoError :=
  match h.lookPath "kubectl" with
  | some _ => (false, some .ErrKubectlInstall)
  | none =>
    match h.output ["kubectl", "cluster-info"] with
    | some _ => (false, some .ErrClusterInfo)
    | none => (true, none)

/-- The function `verifyArgoCD` (verify.go lines 100-113). -/
def verifyArgoCD (h : Host) : Bool × Option GoError :=
  match h.lookPath "argocd" with
  | some _ => (false, some .ErrArgoCD)
  | none =>
    match h.output ["argocd", "account", "list"] with
    | some _ => (false, some .ErrArgoCDAuthToken)
    | none => (true, none)

/-- The function `verifyGit` (verify.go lines 116-122). -/
def verifyGit (h : Host) : Bool × Option GoError :=
  match h.lookPath "git" with
  | some _ => (false, some .ErrGit)
  | none => (true, none)

/-- The function `verifyArlon` (verify.go lines 125-142). -/
def verifyArlon (h : Host) : Bool × Option GoError :=
  match h.pipeOutput ["kubectl", "get", "ns"] ["grep", "arlon"] with
  | some _ => (false, some .ErrArlonNs)
  | none => (true, none)

/-- The function `checkCapaCloudProvider` (verify.go lines 177-195): the error of
the `grep` run is returned as it is. -/
def checkCapaCloudProvider (h : Host) : Option GoError :=
  match h.pipeOutput ["kubectl", "get", "ns"] ["grep", "capa-system"] with
  | some errCapa => some (.exec errCapa)
  | none => none

/-- The function `checkCapzCloudProvider` (verify.go lines 198-216). -/
def checkCapzCloudProvider (h : Host) : Option GoError :=
  match h.pipeOutput ["kubectl", "get", "ns"] ["grep", "capz-system"] with
  | some errCapz => some (.exec errCapz)
  | none => none

/-- The function `verifyCapi` (verify.go lines 145-174).  When both provider
checks fail, line 168 returns the local variable `errCapaCP`, the error of the
first provider check. -/
def verifyCapi (h : Host) : Bool × Option GoError :=
  match h.pipeOutput ["kubectl", "api-versions"] ["grep", "infrastructure.cluster.x-k8s.io"] with
  | some _ => (false, some .ErrCapi)
  | none =>
    match checkCapaCloudProvider h with
    | some errCapaCP =>
      match checkCapzCloudProvider h with
      | some _ => (false, some errCapaCP)
      | none => (true, none)
    | none => (true, none)

/-- A host on which the CAPI api-version is present and neither provider
namespace is: the two provider `grep` runs end with exit status 1, every other
command succeeds. -/
def hostWithoutProvider : Host where
  lookPath := fun _ => none
  output := fun _ => none
  pipeOutput := fun _ consumer =>
    if consumer = ["grep", "capa-system"] ∨ consumer = ["grep", "capz-system"] then
      some "exit status 1"
    else none

end verify

/-! ## Sample inputs -/

/-- Sample values for the string constants. -/
def sampleKeys : Keys where
  ClusterSpecAnnotationKey := "arlon.io/clusterspec"
  ProfileAnnotationKey := "arlon.io/profile"
  baseClusterNameAnnotation := "arlon.io/basecluster-name"
  baseClusterRepoUrlAnnotation := "arlon.io/basecluster-repo-url"
  baseClusterRepoRevisionAnnotation := "arlon.io/basecluster-repo-revision"
  baseClusterRepoPathAnnotation := "arlon.io/basecluster-repo-path"
  argoClusterSecretTypeLabel := "argocd.argoproj.io/secret-type=cluster"
  externalClusterTypeLabel := "arlon.io/cluster-type=external"

/-- A collaborator set that answers every call the same way whatever happened
before: `apps sel` to an application query, `kube` to the client construction,
`secrs` to the secret query. -/
def staticWorld (apps : String → Except String (List Application)) (kube : Option String)
    (secrs : Except String (List Secret)) : World Unit Unit where
  appList := fun sel s => (apps sel, s)
  newForConfig := fun _ s => (kube, s)
  secretList := fun _ _ s => (secrs, s)

/-- The legacy application of the spec's example. -/
def prodEast (k : Keys) : Application :=
  { Name := "prod-east", Annotations := [(k.ClusterSpecAnnotationKey, "spec-a")] }

/-- The cluster-app of the spec's example, carrying the four base-cluster
annotations with the given values. -/
def prodWest (k : Keys) (baseName repoUrl repoRevision repoPath : String) : Application :=
  { Name := "prod-west"
    Annotations :=
      [(k.baseClusterNameAnnotation, baseName),
       (k.baseClusterRepoUrlAnnotation, repoUrl),
       (k.baseClusterRepoRevisionAnnotation, repoRevision),
       (k.baseClusterRepoPathAnnotation, repoPath)] }

/-- The profile app of the spec's example. -/
def goldProfileApp : Application :=
  { Name := "prod-west-profile-gold", Labels := [("arlon-profile", "gold")] }

/-- The secret of the spec's example. -/
def extCluster1 (k : Keys) : Secret :=
  { Name := "ext-cluster-1"
    Data := [("name", some "remote-1")]
    Annotations := [(k.ProfileAnnotationKey, "silver")] }

/-- The spec's example input as a collaborator set. -/
def specExampleWorld : World Unit Unit :=
  staticWorld
    (fun sel =>
      if sel = legacySelector then .ok [prodEast sampleKeys]
      else if sel = nextGenSelector then .ok [prodWest sampleKeys "base-1" "https://git.example/repo.git" "main" "clusters/base-1"]
      else if sel = profileAppSelector "prod-west" then .ok [goldProfileApp]
      else .ok [])
    none (.ok [extCluster1 sampleKeys])

/-- A second input: three cluster-apps, of which `multi` has two profile apps
(`gold` first), `unlabeled` has a first profile app without the `arlon-profile`
label followed by a labeled one, and `bare` has none. -/
def fleetWorld : World Unit Unit :=
  staticWorld
    (fun sel =>
      if sel = legacySelector then .ok [prodEast sampleKeys]
      else if sel = nextGenSelector then
        .ok [{ Name := "multi" }, { Name := "unlabeled" }, { Name := "bare" }]
      else if sel = profileAppSelector "multi" then
        .ok [goldProfileApp, { Name := "multi-bronze", Labels := [("arlon-profile", "bronze")] }]
      else if sel = profileAppSelector "unlabeled" then
        .ok [{ Name := "unlabeled-1" }, goldProfileApp]
      else .ok [])
    none (.ok [extCluster1 sampleKeys])

/-- A secret that carries the two labels but whose data has no `name` key. -/
def namelessSecret : Secret :=
  { Name := "ext-nameless" }

/-- An input on which the application queries find nothing and the secret query
returns the single secret `namelessSecret`. -/
def missingNameWorld : World Unit Unit :=
  staticWorld (fun _ => .ok []) none (.ok [namelessSecret])

/-- An input on which every application query fails with `"connection refused"`. -/
def legacyDownWorld : World Unit Unit :=
  staticWorld (fun _ => .error "connection refused") none (.ok [extCluster1 sampleKeys])

/-- An input on which the legacy query succeeds and the next-gen query fails. -/
def nextGenDownWorld : World Unit Unit :=
  staticWorld
    (fun sel =>
      if sel = legacySelector then .ok [prodEast sampleKeys]
      else .error "permission denied")
    none (.ok [extCluster1 sampleKeys])

/-- The spec's example input, except that the client construction fails. -/
def kubeDownWorld : World Unit Unit :=
  { specExampleWorld with newForConfig := fun _ s => (some "invalid configuration", s) }

/-- The spec's example input, except that the secret query fails. -/
def secretsDownWorld : World Unit Unit :=
  { specExampleWorld with secretList := fun _ _ s => (.error "secrets is forbidden", s) }

/-- The three cluster-apps `fleetWorld` returns. -/
def fleetApps : List Application :=
  [{ Name := "multi" }, { Name := "unlabeled" }, { Name := "bare" }]

/-- The answers of `fleetWorld` to the nested queries of `fleetApps`, in order. -/
def fleetProfiles : List (List Application) :=
  [[goldProfileApp, { Name := "multi-bronze", Labels := [("arlon-profile", "bronze")] }],
   [{ Name := "unlabeled-1" }, goldProfileApp],
   []]

/-- An input on which the two top-level queries succeed and the nested query of
the single cluster-app fails. -/
def profileDownWorld : World Unit Unit :=
  staticWorld
    (fun sel =>
      if sel = legacySelector then .ok [prodEast sampleKeys]
      else if sel = nextGenSelector then .ok [prodWest sampleKeys "base-1" "https://git.example/repo.git" "main" "clusters/base-1"]
      else .error "deadline exceeded")
    none (.ok [extCluster1 sampleKeys])

/-! ## The three loops -/

theorem legacyPass_eq (k : Keys) (apps : List Application) (acc : List Cluster) :
    legacyPass k apps acc = acc ++ apps.map (legacyRecord k) := by
  induction apps generalizing acc with
  | nil => simp [legacyPass]
  | cons a rest ih => simp [legacyPass, ih]

theorem externalPass_clist (k : Keys) (secrs : List Secret) (acc : List Cluster)
    (logs : List String) :
    (externalPass k secrs acc logs).1 = acc ++ secrs.map (externalRecord k) := by
  induction secrs generalizing acc logs with
  | nil => simp [externalPass]
  | cons x rest ih => simp [externalPass, ih]

theorem nextGenPass_cases {σ κ : Type} (k : Keys) (w : World σ κ) (apps : List Application)
    (acc : List Cluster) (s : σ) (tr : List Event) :
    (∃ profs s', profs.length = apps.length ∧
        nextGenPass k w apps acc s tr =
          (.ok (acc ++ List.zipWith (nextGenRecord k) apps profs), s',
            tr ++ List.zipWith profileAppEvent apps profs))
    ∨ (∃ pre a e s', a ∈ apps ∧ (∀ ev ∈ pre, Event.failed ev = false) ∧
        nextGenPass k w apps acc s tr =
          (.error ("failed to list profile apps associated with cluster " ++ a.Name ++ ": " ++ e),
            s', tr ++ pre ++ [Event.appList (profileAppSelector a.Name) (.error e)])) := by
  induction apps generalizing acc s tr with
  | nil => exact Or.inl ⟨[], s, rfl, by simp [nextGenPass]⟩
  | cons a rest ih =>
    rcases hq : w.appList (profileAppSelector a.Name) s with ⟨resp, s'⟩
    cases resp with
    | error e =>
      refine Or.inr ⟨[], a, e, s', by simp, by simp, ?_⟩
      simp [nextGenPass, hq]
    | ok ps =>
      rcases ih (acc ++ [nextGenRecord k a ps]) s' (tr ++ [profileAppEvent a ps]) with
        ⟨profs, s'', hlen, heq⟩ | ⟨pre, b, e, s'', hb, hpre, heq⟩
      · refine Or.inl ⟨ps :: profs, s'', by simp [hlen], ?_⟩
        simp only [nextGenPass, hq]
        rw [show Event.appList (profileAppSelector a.Name) (Except.ok ps) = profileAppEvent a ps
          from rfl, heq]
        simp
      · refine Or.inr ⟨profileAppEvent a ps :: pre, b, e, s'', by simp [hb], ?_, ?_⟩
        · intro ev hev
          rcases List.mem_cons.1 hev with h | h
          · subst h; rfl
          · exact hpre ev h
        · simp only [nextGenPass, hq]
          rw [show Event.appList (profileAppSelector a.Name) (Except.ok ps) = profileAppEvent a ps
            from rfl, heq]
          simp

/-! ## The shape of a run -/

theorem successTrace_not_failed (k : Keys) (ns : String) (legacy nextGen : List Application)
    (profs : List (List Application)) (secrs : List Secret) :
    ∀ ev ∈ successTrace k ns legacy nextGen profs secrs, Event.failed ev = false := by
  intro ev hev
  simp only [successTrace, List.mem_append, List.mem_cons, List.mem_singleton,
    List.not_mem_nil, or_false] at hev
  rcases hev with ((h | h) | h) | (h | h)
  · subst h; rfl
  · subst h; rfl
  · induction nextGen generalizing profs with
    | nil => simp at h
    | cons a rest ih =>
      cases profs with
      | nil => simp at h
      | cons p ps =>
        simp only [List.zipWith_cons_cons, List.mem_cons] at h
        rcases h with h | h
        · subst h; rfl
        · exact ih ps h
  · subst h; rfl
  · subst h; rfl

/-- Every run of `cluster.List` is of one of two kinds.  Either every call
succeeded, the recorded calls are a `successTrace` and the result is the three
passes' records in order; or the last recorded call failed, the result list is
nil and the error is the message list.go formats for that call. -/
theorem run_cases {σ κ : Type} (k : Keys) (w : World σ κ) (config : κ) (ns : String) (s0 : σ) :
    ((cluster.List k w config ns s0).err = none ∧
      ∃ legacy nextGen profs secrs, profs.length = nextGen.length ∧
        (cluster.List k w config ns s0).trace = successTrace k ns legacy nextGen profs secrs ∧
        (cluster.List k w config ns s0).clist =
          legacy.map (legacyRecord k) ++ List.zipWith (nextGenRecord k) nextGen profs
            ++ secrs.map (externalRecord k))
    ∨ ((cluster.List k w config ns s0).clist = [] ∧
      ∃ pre ev msg, (cluster.List k w config ns s0).trace = pre ++ [ev] ∧
        (∀ x ∈ pre, Event.failed x = false) ∧ Event.failed ev = true ∧
        (cluster.List k w config ns s0).err = some msg ∧ Explains k ns ev msg) := by
  rcases h1 : w.appList legacySelector s0 with ⟨r1, s1⟩
  cases r1 with
  | error e =>
    have hr : cluster.List k w config ns s0 =
        { clist := [], err := some ("failed to list argocd applications: " ++ e), state := s1
          trace := [Event.appList legacySelector (.error e)], logs := [] } := by
      simp [cluster.List, h1]
    rw [hr]
    exact Or.inr ⟨rfl, [], _, _, rfl, by simp, rfl, rfl, Or.inl ⟨e, rfl, rfl⟩⟩
  | ok legacy =>
    rcases h2 : w.appList nextGenSelector s1 with ⟨r2, s2⟩
    cases r2 with
    | error e =>
      have hr : cluster.List k w config ns s0 =
          { clist := [], err := some ("failed to list next-gen clusters: " ++ e), state := s2
            trace := [Event.appList legacySelector (.ok legacy),
              Event.appList nextGenSelector (.error e)], logs := [] } := by
        simp [cluster.List, h1, h2]
      rw [hr]
      exact Or.inr ⟨rfl, [Event.appList legacySelector (.ok legacy)], _, _, rfl,
        by simp [Event.failed], rfl, rfl, Or.inr (Or.inl ⟨e, rfl, rfl⟩)⟩
    | ok nextGen =>
      rcases nextGenPass_cases k w nextGen (legacyPass k legacy []) s2
          [Event.appList legacySelector (.ok legacy),
            Event.appList nextGenSelector (.ok nextGen)] with
        ⟨profs, s3, hlen, h3⟩ | ⟨pre, a, e, s3, _, hpre, h3⟩
      · have hok : ∀ x ∈ [Event.appList legacySelector (.ok legacy),
            Event.appList nextGenSelector (.ok nextGen)]
              ++ List.zipWith profileAppEvent nextGen profs, Event.failed x = false := by
          intro x hx
          apply successTrace_not_failed k ns legacy nextGen profs [] x
          simp only [successTrace, List.mem_append]
          exact Or.inl (List.mem_append.1 hx)
        rcases h4 : w.newForConfig config s3 with ⟨r4, s4⟩
        cases r4 with
        | some e =>
          have hr : cluster.List k w config ns s0 =
              { clist := [], err := some ("failed to get kube client: " ++ e), state := s4
                trace := ([Event.appList legacySelector (.ok legacy),
                  Event.appList nextGenSelector (.ok nextGen)]
                    ++ List.zipWith profileAppEvent nextGen profs)
                    ++ [Event.newForConfig (some e)], logs := [] } := by
            simp [cluster.List, h1, h2, h3, h4]
          rw [hr]
          exact Or.inr ⟨rfl, _, _, _, rfl, hok, rfl, rfl,
            Or.inr (Or.inr (Or.inr (Or.inl ⟨e, rfl, rfl⟩)))⟩
        | none =>
          rcases h5 : w.secretList ns
              (k.argoClusterSecretTypeLabel ++ "," ++ k.externalClusterTypeLabel) s4 with ⟨r5, s5⟩
          cases r5 with
          | error e =>
            have hr : cluster.List k w config ns s0 =
                { clist := [], err := some ("failed to list cluster secrets: " ++ e), state := s5
                  trace := (([Event.appList legacySelector (.ok legacy),
                    Event.appList nextGenSelector (.ok nextGen)]
                      ++ List.zipWith profileAppEvent nextGen profs) ++ [Event.newForConfig none])
                      ++ [Event.secretList ns (secretSelector k) (.error e)], logs := [] } := by
              simp [cluster.List, h1, h2, h3, h4, h5, secretSelector]
            rw [hr]
            refine Or.inr ⟨rfl, _, _, _, rfl, ?_, rfl, rfl,
              Or.inr (Or.inr (Or.inr (Or.inr ⟨e, rfl, rfl⟩)))⟩
            intro x hx
            rcases List.mem_append.1 hx with h | h
            · exact hok x h
            · rw [List.mem_singleton.1 h]; rfl
          | ok secrs =>
            have hr : cluster.List k w config ns s0 =
                { clist := (externalPass k secrs (legacyPass k legacy []
                      ++ List.zipWith (nextGenRecord k) nextGen profs) []).1
                  err := none, state := s5
                  trace := successTrace k ns legacy nextGen profs secrs
                  logs := (externalPass k secrs (legacyPass k legacy []
                      ++ List.zipWith (nextGenRecord k) nextGen profs) []).2 } := by
              simp [cluster.List, h1, h2, h3, h4, h5, secretSelector, successTrace]
            rw [hr]
            refine Or.inl ⟨rfl, legacy, nextGen, profs, secrs, hlen, rfl, ?_⟩
            simp [externalPass_clist, legacyPass_eq]
      · have hr : cluster.List k w config ns s0 =
            { clist := []
              err := some ("failed to list profile apps associated with cluster " ++ a.Name
                ++ ": " ++ e)
              state := s3
              trace := ([Event.appList legacySelector (.ok legacy),
                Event.appList nextGenSelector (.ok nextGen)] ++ pre)
                  ++ [Event.appList (profileAppSelector a.Name) (.error e)], logs := [] } := by
          simp [cluster.List, h1, h2, h3]
        rw [hr]
        refine Or.inr ⟨rfl, _, _, _, rfl, ?_, rfl, rfl,
          Or.inr (Or.inr (Or.inl ⟨a.Name, e, rfl, rfl⟩))⟩
        intro x hx
        simp only [List.mem_append, List.mem_cons, List.mem_singleton, List.not_mem_nil,
          or_false] at hx
        rcases hx with (h | h) | h
        · subst h; rfl
        · subst h; rfl
        · exact hpre x h

/-! ## Auxiliary facts for the claims -/

theorem mem_zipWith_nextGenRecord (k : Keys) (c : Cluster) (nextGen : List Application)
    (profs : List (List Application)) (h : c ∈ List.zipWith (nextGenRecord k) nextGen profs) :
    ∃ a ps, c = nextGenRecord k a ps := by
  rcases List.mem_iff_getElem?.1 h with ⟨n, hn⟩
  rw [List.getElem?_zipWith] at hn
  cases ha : nextGen[n]? with
  | none => simp [ha] at hn
  | some a =>
    cases hp : profs[n]? with
    | none => simp [ha, hp] at hn
    | some ps =>
      simp only [ha, hp, Option.some.injEq] at hn
      exact ⟨a, ps, hn.symm⟩

theorem nextGen_record_at (k : Keys) (legacy nextGen : List Application)
    (profs : List (List Application)) (secrs : List Secret) (i : Nat) (a : Application)
    (ps : List Application) (ha : nextGen[i]? = some a) (hp : profs[i]? = some ps) :
    (legacy.map (legacyRecord k) ++ List.zipWith (nextGenRecord k) nextGen profs
      ++ secrs.map (externalRecord k))[legacy.length + i]? = some (nextGenRecord k a ps) := by
  have hz : (List.zipWith (nextGenRecord k) nextGen profs)[i]? = some (nextGenRecord k a ps) := by
    rw [List.getElem?_zipWith, ha, hp]
  have hi : i < (List.zipWith (nextGenRecord k) nextGen profs).length :=
    (List.getElem?_eq_some.1 hz).1
  rw [List.append_assoc, List.getElem?_append_right (by simp)]
  simp only [List.length_map, Nat.add_sub_cancel_left]
  rw [List.getElem?_append_left hi, hz]

theorem lookup_cons_self {β : Type} (a : String) (b : β) (es : List (String × β)) :
    List.lookup a ((a, b) :: es) = some b := by
  simp [List.lookup]

theorem lookup_cons_ne {β : Type} (key a : String) (b : β) (es : List (String × β))
    (h : key ≠ a) : List.lookup key ((a, b) :: es) = List.lookup key es := by
  have hb : (key == a) = false := beq_eq_false_iff_ne.2 h
  simp [List.lookup, hb]

theorem markerCount_legacyRecord (k : Keys) (a : Application) :
    markerCount (legacyRecord k a) ≤ 1 := by
  simp only [markerCount, legacyRecord]
  split <;> simp

theorem mentions_of_head (pre e sub : String) (h : sub.toList <:+: pre.toList) :
    Mentions (pre ++ e) sub := by
  show sub.toList <:+: (pre ++ e).data
  rw [String.data_append]
  exact h.trans (List.infix_append' [] pre.data e.data)

theorem mentions_suffix (pre e : String) : Mentions (pre ++ e) e := by
  show e.toList <:+: (pre ++ e).data
  rw [String.data_append]
  exact (List.suffix_append _ _).isInfix

/-! ## Runs against what the collaborators answer -/

theorem NestedAnswers.length_eq {σ κ : Type} {w : World σ κ} {apps : List Application}
    {s s' : σ} {profs : List (List Application)} (h : NestedAnswers w apps s profs s') :
    profs.length = apps.length := by
  induction h with
  | nil s => rfl
  | cons _ _ ih => simp [ih]

theorem nextGenPass_of_answers {σ κ : Type} (k : Keys) {w : World σ κ}
    {apps : List Application} {s s' : σ} {profs : List (List Application)}
    (h : NestedAnswers w apps s profs s') (acc : List Cluster) (tr : List Event) :
    nextGenPass k w apps acc s tr =
      (.ok (acc ++ List.zipWith (nextGenRecord k) apps profs), s',
        tr ++ List.zipWith profileAppEvent apps profs) := by
  induction h generalizing acc tr with
  | nil s => simp [nextGenPass]
  | @cons a rest s sm s' ps pss hq _ ih =>
    have hq' : w.appList (profileAppSelector a.Name) s = (Except.ok ps, sm) := hq
    simp only [nextGenPass, hq']
    rw [ih]
    simp [profileAppEvent]

theorem nextGenPass_of_failure {σ κ : Type} (k : Keys) {w : World σ κ}
    {done : List Application} {s sm : σ} {profs : List (List Application)}
    (h : NestedAnswers w done s profs sm) (a : Application) (rest : List Application)
    (e : String) (s3 : σ)
    (hq : w.appList ("managed-by=arlon,arlon-type=profile-app,arlon-cluster=" ++ a.Name) sm
      = (Except.error e, s3))
    (acc : List Cluster) (tr : List Event) :
    nextGenPass k w (done ++ a :: rest) acc s tr =
      (.error ("failed to list profile apps associated with cluster " ++ a.Name ++ ": " ++ e),
        s3, tr ++ List.zipWith profileAppEvent done profs
          ++ [Event.appList (profileAppSelector a.Name) (.error e)]) := by
  induction h generalizing acc tr with
  | nil s =>
    have hq' : w.appList (profileAppSelector a.Name) s = (Except.error e, s3) := hq
    simp [nextGenPass, hq']
  | @cons b rest' s sm' s' ps pss hb _ ih =>
    have hb' : w.appList (profileAppSelector b.Name) s = (Except.ok ps, sm') := hb
    have hrec := ih hq (acc ++ [nextGenRecord k b ps])
      (tr ++ [Event.appList (profileAppSelector b.Name) (Except.ok ps)])
    simp only [List.cons_append, nextGenPass, hb', List.append_eq, hrec]
    simp [profileAppEvent]

theorem nested_total {σ κ : Type} (w : World σ κ) (apps : List Application) (s : σ) :
    (∃ profs s', NestedAnswers w apps s profs s')
    ∨ (∃ done a rest profs sm e s3, apps = done ++ a :: rest ∧ NestedAnswers w done s profs sm ∧
        w.appList ("managed-by=arlon,arlon-type=profile-app,arlon-cluster=" ++ a.Name) sm
          = (Except.error e, s3)) := by
  induction apps generalizing s with
  | nil => exact Or.inl ⟨[], s, NestedAnswers.nil s⟩
  | cons a rest ih =>
    rcases hq : w.appList ("managed-by=arlon,arlon-type=profile-app,arlon-cluster=" ++ a.Name) s
      with ⟨resp, sm⟩
    cases resp with
    | error e => exact Or.inr ⟨[], a, rest, [], s, e, sm, rfl, NestedAnswers.nil s, hq⟩
    | ok ps =>
      rcases ih sm with ⟨profs, s', h⟩ | ⟨done, b, rest', profs, sm', e, s3, happ, h, hb⟩
      · exact Or.inl ⟨ps :: profs, s', NestedAnswers.cons hq h⟩
      · exact Or.inr ⟨a :: done, b, rest', ps :: profs, sm', e, s3, by simp [happ],
          NestedAnswers.cons hq h, hb⟩

theorem run_legacy_fails {σ κ : Type} (k : Keys) (w : World σ κ) (config : κ) (ns : String)
    (s0 s1 : σ) (e : String)
    (h1 : w.appList "managed-by=arlon,arlon-type=cluster" s0 = (Except.error e, s1)) :
    cluster.List k w config ns s0 =
      { clist := [], err := some ("failed to list argocd applications: " ++ e), state := s1
        trace := [Event.appList legacySelector (.error e)], logs := [] } := by
  have h1' : w.appList legacySelector s0 = (Except.error e, s1) := h1
  simp [cluster.List, h1']

theorem run_nextGen_fails {σ κ : Type} (k : Keys) (w : World σ κ) (config : κ) (ns : String)
    (s0 s1 s2 : σ) (legacy : List Application) (e : String)
    (h1 : w.appList "managed-by=arlon,arlon-type=cluster" s0 = (Except.ok legacy, s1))
    (h2 : w.appList "managed-by=arlon,arlon-type=cluster-app" s1 = (Except.error e, s2)) :
    cluster.List k w config ns s0 =
      { clist := [], err := some ("failed to list next-gen clusters: " ++ e), state := s2
        trace := [Event.appList legacySelector (.ok legacy),
          Event.appList nextGenSelector (.error e)], logs := [] } := by
  have h1' : w.appList legacySelector s0 = (Except.ok legacy, s1) := h1
  have h2' : w.appList nextGenSelector s1 = (Except.error e, s2) := h2
  simp [cluster.List, h1', h2']

theorem run_nested_fails {σ κ : Type} (k : Keys) (w : World σ κ) (config : κ) (ns : String)
    (s0 s1 s2 sm s3 : σ) (legacy done : List Application) (a : Application)
    (rest : List Application) (profs : List (List Application)) (e : String)
    (h1 : w.appList "managed-by=arlon,arlon-type=cluster" s0 = (Except.ok legacy, s1))
    (h2 : w.appList "managed-by=arlon,arlon-type=cluster-app" s1
      = (Except.ok (done ++ a :: rest), s2))
    (hn : NestedAnswers w done s2 profs sm)
    (hq : w.appList ("managed-by=arlon,arlon-type=profile-app,arlon-cluster=" ++ a.Name) sm
      = (Except.error e, s3)) :
    cluster.List k w config ns s0 =
      { clist := []
        err := some ("failed to list profile apps associated with cluster " ++ a.Name
          ++ ": " ++ e)
        state := s3
        trace := [Event.appList legacySelector (.ok legacy),
            Event.appList nextGenSelector (.ok (done ++ a :: rest))]
          ++ List.zipWith profileAppEvent done profs
          ++ [Event.appList (profileAppSelector a.Name) (.error e)]
        logs := [] } := by
  have h1' : w.appList legacySelector s0 = (Except.ok legacy, s1) := h1
  have h2' : w.appList nextGenSelector s1 = (Except.ok (done ++ a :: rest), s2) := h2
  have h3 := nextGenPass_of_failure k hn a rest e s3 hq (legacyPass k legacy [])
    [Event.appList legacySelector (.ok legacy),
      Event.appList nextGenSelector (.ok (done ++ a :: rest))]
  simp [cluster.List, h1', h2', h3]

theorem run_kube_fails {σ κ : Type} (k : Keys) (w : World σ κ) (config : κ) (ns : String)
    (s0 s3 s4 : σ) (legacy nextGen : List Application) (profs : List (List Application))
    (e : String) (ha : AppQueriesAnswer w s0 legacy nextGen profs s3)
    (h4 : w.newForConfig config s3 = (some e, s4)) :
    cluster.List k w config ns s0 =
      { clist := [], err := some ("failed to get kube client: " ++ e), state := s4
        trace := [Event.appList legacySelector (.ok legacy),
            Event.appList nextGenSelector (.ok nextGen)]
          ++ List.zipWith profileAppEvent nextGen profs ++ [Event.newForConfig (some e)]
        logs := [] } := by
  obtain ⟨s1, s2, h1, h2, hn⟩ := ha
  have h1' : w.appList legacySelector s0 = (Except.ok legacy, s1) := h1
  have h2' : w.appList nextGenSelector s1 = (Except.ok nextGen, s2) := h2
  have h3 := nextGenPass_of_answers k hn (legacyPass k legacy [])
    [Event.appList legacySelector (.ok legacy), Event.appList nextGenSelector (.ok nextGen)]
  simp [cluster.List, h1', h2', h3, h4]

theorem run_secrets_fail {σ κ : Type} (k : Keys) (w : World σ κ) (config : κ) (ns : String)
    (s0 s3 s4 s5 : σ) (legacy nextGen : List Application) (profs : List (List Application))
    (e : String) (ha : AppQueriesAnswer w s0 legacy nextGen profs s3)
    (h4 : w.newForConfig config s3 = (none, s4))
    (h5 : w.secretList ns (k.argoClusterSecretTypeLabel ++ "," ++ k.externalClusterTypeLabel) s4
      = (Except.error e, s5)) :
    cluster.List k w config ns s0 =
      { clist := [], err := some ("failed to list cluster secrets: " ++ e), state := s5
        trace := [Event.appList legacySelector (.ok legacy),
            Event.appList nextGenSelector (.ok nextGen)]
          ++ List.zipWith profileAppEvent nextGen profs
          ++ [Event.newForConfig none, Event.secretList ns (secretSelector k) (.error e)]
        logs := [] } := by
  obtain ⟨s1, s2, h1, h2, hn⟩ := ha
  have h1' : w.appList legacySelector s0 = (Except.ok legacy, s1) := h1
  have h2' : w.appList nextGenSelector s1 = (Except.ok nextGen, s2) := h2
  have h3 := nextGenPass_of_answers k hn (legacyPass k legacy [])
    [Event.appList legacySelector (.ok legacy), Event.appList nextGenSelector (.ok nextGen)]
  simp [cluster.List, h1', h2', h3, h4, h5, secretSelector]

theorem run_of_answers {σ κ : Type} (k : Keys) (w : World σ κ) (config : κ) (ns : String)
    (s0 s5 : σ) (legacy nextGen : List Application) (profs : List (List Application))
    (secrs : List Secret) (h : AllAnswer k w config ns s0 legacy nextGen profs secrs s5) :
    (cluster.List k w config ns s0).err = none ∧
    (cluster.List k w config ns s0).state = s5 ∧
    (cluster.List k w config ns s0).trace = successTrace k ns legacy nextGen profs secrs ∧
    (cluster.List k w config ns s0).clist =
      legacy.map (legacyRecord k) ++ List.zipWith (nextGenRecord k) nextGen profs
        ++ secrs.map (externalRecord k) := by
  obtain ⟨s3, s4, ⟨s1, s2, h1, h2, hn⟩, h4, h5⟩ := h
  have h1' : w.appList legacySelector s0 = (Except.ok legacy, s1) := h1
  have h2' : w.appList nextGenSelector s1 = (Except.ok nextGen, s2) := h2
  have h3 := nextGenPass_of_answers k hn (legacyPass k legacy [])
    [Event.appList legacySelector (.ok legacy), Event.appList nextGenSelector (.ok nextGen)]
  have hr : cluster.List k w config ns s0 =
      { clist := (externalPass k secrs (legacyPass k legacy []
            ++ List.zipWith (nextGenRecord k) nextGen profs) []).1
        err := none, state := s5
        trace := successTrace k ns legacy nextGen profs secrs
        logs := (externalPass k secrs (legacyPass k legacy []
            ++ List.zipWith (nextGenRecord k) nextGen profs) []).2 } := by
    simp [cluster.List, h1', h2', h3, h4, h5, secretSelector, successTrace]
  rw [hr]
  exact ⟨rfl, rfl, rfl, by simp [externalPass_clist, legacyPass_eq]⟩

/-- The collaborators either answer every call of a run, or exactly one of the five
kinds of call is the first to fail.  This is a statement about the `World`
alone. -/
theorem world_cases {σ κ : Type} (k : Keys) (w : World σ κ) (config : κ) (ns : String) (s0 : σ) :
    (∃ legacy nextGen profs secrs s5, AllAnswer k w config ns s0 legacy nextGen profs secrs s5)
    ∨ (∃ e s1, w.appList "managed-by=arlon,arlon-type=cluster" s0 = (Except.error e, s1))
    ∨ (∃ legacy s1 e s2,
        w.appList "managed-by=arlon,arlon-type=cluster" s0 = (Except.ok legacy, s1) ∧
        w.appList "managed-by=arlon,arlon-type=cluster-app" s1 = (Except.error e, s2))
    ∨ (∃ legacy s1 done a rest s2 profs sm e s3,
        w.appList "managed-by=arlon,arlon-type=cluster" s0 = (Except.ok legacy, s1) ∧
        w.appList "managed-by=arlon,arlon-type=cluster-app" s1
          = (Except.ok (done ++ a :: rest), s2) ∧
        NestedAnswers w done s2 profs sm ∧
        w.appList ("managed-by=arlon,arlon-type=profile-app,arlon-cluster=" ++ a.Name) sm
          = (Except.error e, s3))
    ∨ (∃ legacy nextGen profs s3 e s4, AppQueriesAnswer w s0 legacy nextGen profs s3 ∧
        w.newForConfig config s3 = (some e, s4))
    ∨ (∃ legacy nextGen profs s3 s4 e s5, AppQueriesAnswer w s0 legacy nextGen profs s3 ∧
        w.newForConfig config s3 = (none, s4) ∧
        w.secretList ns (k.argoClusterSecretTypeLabel ++ "," ++ k.externalClusterTypeLabel) s4
          = (Except.error e, s5)) := by
  rcases h1 : w.appList "managed-by=arlon,arlon-type=cluster" s0 with ⟨r1, s1⟩
  cases r1 with
  | error e => exact Or.inr (Or.inl ⟨e, s1, rfl⟩)
  | ok legacy =>
    rcases h2 : w.appList "managed-by=arlon,arlon-type=cluster-app" s1 with ⟨r2, s2⟩
    cases r2 with
    | error e => exact Or.inr (Or.inr (Or.inl ⟨legacy, s1, e, s2, rfl, h2⟩))
    | ok nextGen =>
      rcases nested_total w nextGen s2 with ⟨profs, s3, hn⟩
        | ⟨done, a, rest, profs, sm, e, s3, happ, hn, hq⟩
      · rcases h4 : w.newForConfig config s3 with ⟨r4, s4⟩
        cases r4 with
        | some e =>
          exact Or.inr (Or.inr (Or.inr (Or.inr (Or.inl
            ⟨legacy, nextGen, profs, s3, e, s4, ⟨s1, s2, h1, h2, hn⟩, h4⟩))))
        | none =>
          rcases h5 : w.secretList ns
            (k.argoClusterSecretTypeLabel ++ "," ++ k.externalClusterTypeLabel) s4 with ⟨r5, s5⟩
          cases r5 with
          | error e =>
            exact Or.inr (Or.inr (Or.inr (Or.inr (Or.inr
              ⟨legacy, nextGen, profs, s3, s4, e, s5, ⟨s1, s2, h1, h2, hn⟩, h4, h5⟩))))
          | ok secrs =>
            exact Or.inl ⟨legacy, nextGen, profs, secrs, s5, s3, s4, ⟨s1, s2, h1, h2, hn⟩,
              h4, h5⟩
      · subst happ
        exact Or.inr (Or.inr (Or.inr (Or.inl
          ⟨legacy, s1, done, a, rest, s2, profs, sm, e, s3, rfl, h2, hn, hq⟩)))

/-- A run returns a nil error only when the collaborators answered every call. -/
theorem nil_error_only_when_all_answer {σ κ : Type} (k : Keys) (w : World σ κ) (config : κ)
    (ns : String) (s0 : σ) (h : (cluster.List k w config ns s0).err = none) :
    ∃ legacy nextGen profs secrs s5, AllAnswer k w config ns s0 legacy nextGen profs secrs s5 := by
  rcases world_cases k w config ns s0 with hall | ⟨e, s1, h1⟩ | ⟨legacy, s1, e, s2, h1, h2⟩
    | ⟨legacy, s1, done, a, rest, s2, profs, sm, e, s3, h1, h2, hn, hq⟩
    | ⟨legacy, nextGen, profs, s3, e, s4, ha, h4⟩
    | ⟨legacy, nextGen, profs, s3, s4, e, s5, ha, h4, h5⟩
  · exact hall
  · rw [run_legacy_fails k w config ns s0 s1 e h1] at h; cases h
  · rw [run_nextGen_fails k w config ns s0 s1 s2 legacy e h1 h2] at h; cases h
  · rw [run_nested_fails k w config ns s0 s1 s2 sm s3 legacy done a rest profs e h1 h2 hn hq] at h
    cases h
  · rw [run_kube_fails k w config ns s0 s3 s4 legacy nextGen profs e ha h4] at h; cases h
  · rw [run_secrets_fail k w config ns s0 s3 s4 s5 legacy nextGen profs e ha h4 h5] at h; cases h

theorem zipWith_nextGenRecord_names (k : Keys) (apps : List Application)
    (profs : List (List Application)) (hlen : profs.length = apps.length) :
    (List.zipWith (nextGenRecord k) apps profs).map Cluster.Name = apps.map Application.Name := by
  induction apps generalizing profs with
  | nil => simp
  | cons a rest ih =>
    cases profs with
    | nil => simp at hlen
    | cons ps pss =>
      simp only [List.length_cons, Nat.add_right_cancel_iff] at hlen
      simp [ih pss hlen, nextGenRecord]

/-! ## What the code does with a secret that has no `name` -/

/-- When the collaborators answer every call, the result has one record per item of
each of the three queries: its length is the number of legacy applications plus
the number of cluster-apps plus the number of returned secrets, whether or not
their data has a `name` key. -/
theorem length_counts_every_secret {σ κ : Type} (k : Keys) (w : World σ κ) (config : κ)
    (ns : String) (s0 s5 : σ) (legacy nextGen : List Application)
    (profs : List (List Application)) (secrs : List Secret)
    (h : AllAnswer k w config ns s0 legacy nextGen profs secrs s5) :
    (cluster.List k w config ns s0).clist.length
      = legacy.length + nextGen.length + secrs.length := by
  obtain ⟨_, _, _, hcl⟩ := run_of_answers k w config ns s0 s5 legacy nextGen profs secrs h
  obtain ⟨s3, s4, ⟨s1, s2, _, _, hn⟩, _, _⟩ := h
  simp [hcl, hn.length_eq, Nat.add_assoc]

/-- When the collaborators answer every call, every returned secret has its record
in the result, also a secret whose data has no `name` key: that record has the
empty `Name`. -/
theorem record_for_every_secret {σ κ : Type} (k : Keys) (w : World σ κ) (config : κ)
    (ns : String) (s0 s5 : σ) (legacy nextGen : List Application)
    (profs : List (List Application)) (secrs : List Secret)
    (h : AllAnswer k w config ns s0 legacy nextGen profs secrs s5) :
    ∀ secr ∈ secrs, ∃ c ∈ (cluster.List k w config ns s0).clist,
      c.SecretName = secr.Name ∧ c.IsExternal = true ∧
      (List.lookup "name" secr.Data = none → c.Name = "") := by
  obtain ⟨_, _, _, hcl⟩ := run_of_answers k w config ns s0 s5 legacy nextGen profs secrs h
  intro secr hs
  refine ⟨externalRecord k secr, ?_, rfl, rfl, ?_⟩
  · rw [hcl]
    exact List.mem_append_right _ (List.mem_map_of_mem _ hs)
  · intro hn
    simp [externalRecord, dataIndex, bytesToString, hn]

/-! ## The claims -/

/-- C1, evaluated on the code: for the input `missingNameWorld`, whose secret query
returns the single secret `ext-nameless` with no `name` key in its data, the run
succeeds, writes the "skipped" diagnostic for that secret, and returns a record
whose `SecretName` is `ext-nameless` (with the empty `Name`). -/
theorem nameless_secret_record_emitted :
    List.lookup "name" namelessSecret.Data = none ∧
    (cluster.List sampleKeys missingNameWorld () "argocd" ()).err = none ∧
    (cluster.List sampleKeys missingNameWorld () "argocd" ()).logs = ["ext-nameless"] ∧
    (cluster.List sampleKeys missingNameWorld () "argocd" ()).clist =
      [{ Name := "", IsExternal := true, SecretName := "ext-nameless" }] ∧
    ∃ c ∈ (cluster.List sampleKeys missingNameWorld () "argocd" ()).clist,
      c.SecretName = namelessSecret.Name := by
  refine ⟨by decide, by decide, by decide, by decide, ?_⟩
  exact ⟨{ Name := "", IsExternal := true, SecretName := "ext-nameless" }, by decide, by decide⟩

/-- C2, evaluated on the code: for the input `missingNameWorld` every call
succeeds, the legacy and next-gen queries return no application and the secret
query returns one secret, without a `name` key; the count of the claim is
0 + 0 + 0, and the returned list has length 1. -/
theorem nameless_secret_counted :
    (missingNameWorld.appList legacySelector ()).1 = .ok [] ∧
    (missingNameWorld.appList nextGenSelector ()).1 = .ok [] ∧
    (missingNameWorld.secretList "argocd" (secretSelector sampleKeys) ()).1
      = .ok [namelessSecret] ∧
    ([] : List Application).length + ([] : List Application).length
      + ([namelessSecret].filter hasNameKey).length = 0 ∧
    (cluster.List sampleKeys missingNameWorld () "argocd" ()).err = none ∧
    (cluster.List sampleKeys missingNameWorld () "argocd" ()).clist.length = 1 := by
  refine ⟨rfl, rfl, rfl, by decide, by decide, by decide⟩

/-- C3: when the collaborators answer every call (the legacy query returns
`legacy`, the next-gen query `nextGen`, the nested query of the i-th cluster-app
`profs[i]`, the secret query `secrs`), the run returns a nil error and the list
made of the legacy records, then the next-gen records, then the external
records, each pass holding one record per returned item in the order the query
returned them: the i-th legacy record is built from `legacy[i]`, the i-th
next-gen record from `nextGen[i]` and `profs[i]`, the i-th external record from
`secrs[i]`, field by field as written out below.  In particular the names of the
records are the names of the legacy applications, then of the cluster-apps,
then the `name` data of the secrets, and the secret names of the external
records are the names of the secrets, in order, with nothing dropped, reordered
or merged.  Conversely a run returns a nil error only when the collaborators
answered every call. -/
theorem result_is_concatenation_in_pass_order {σ κ : Type} (k : Keys) (w : World σ κ)
    (config : κ) (ns : String) (s0 : σ) :
    (∀ (legacy nextGen : List Application) (profs : List (List Application))
        (secrs : List Secret) (s5 : σ),
      AllAnswer k w config ns s0 legacy nextGen profs secrs s5 →
      (cluster.List k w config ns s0).err = none ∧
      (cluster.List k w config ns s0).state = s5 ∧
      profs.length = nextGen.length ∧
      (cluster.List k w config ns s0).clist =
        legacy.map (fun a =>
            ({ Name := a.Name
               ClusterSpecName := (List.lookup k.ClusterSpecAnnotationKey a.Annotations).getD ""
               ProfileName := (List.lookup k.ProfileAnnotationKey a.Annotations).getD ""
               BaseCluster := none
               IsExternal := false
               SecretName := "" } : Cluster))
          ++ List.zipWith (fun a ps =>
            ({ Name := a.Name
               ClusterSpecName := ""
               ProfileName :=
                 (ps.head?.map (fun p => (List.lookup "arlon-profile" p.Labels).getD "")).getD ""
               BaseCluster := some
                 { Name := (List.lookup k.baseClusterNameAnnotation a.Annotations).getD ""
                   RepoUrl := (List.lookup k.baseClusterRepoUrlAnnotation a.Annotations).getD ""
                   RepoRevision :=
                     (List.lookup k.baseClusterRepoRevisionAnnotation a.Annotations).getD ""
                   RepoPath :=
                     (List.lookup k.baseClusterRepoPathAnnotation a.Annotations).getD "" }
               IsExternal := false
               SecretName := "" } : Cluster)) nextGen profs
          ++ secrs.map (fun secr =>
            ({ Name := ((List.lookup "name" secr.Data).getD none).getD ""
               ClusterSpecName := ""
               ProfileName := (List.lookup k.ProfileAnnotationKey secr.Annotations).getD ""
               BaseCluster := none
               IsExternal := true
               SecretName := secr.Name } : Cluster)) ∧
      (cluster.List k w config ns s0).clist.map Cluster.Name =
        legacy.map Application.Name ++ nextGen.map Application.Name
          ++ secrs.map (fun secr => ((List.lookup "name" secr.Data).getD none).getD "") ∧
      ((cluster.List k w config ns s0).clist.drop (legacy.length + nextGen.length)).map
        Cluster.SecretName = secrs.map Secret.Name) ∧
    ((cluster.List k w config ns s0).err = none →
      ∃ legacy nextGen profs secrs s5,
        AllAnswer k w config ns s0 legacy nextGen profs secrs s5) := by
  refine ⟨?_, nil_error_only_when_all_answer k w config ns s0⟩
  intro legacy nextGen profs secrs s5 h
  obtain ⟨herr, hst, _, hcl⟩ := run_of_answers k w config ns s0 s5 legacy nextGen profs secrs h
  obtain ⟨s3, s4, ⟨s1, s2, _, _, hn⟩, _, _⟩ := h
  have hlen := hn.length_eq
  have hng : nextGenRecord k = fun a ps =>
      ({ Name := a.Name
         ClusterSpecName := ""
         ProfileName :=
           (ps.head?.map (fun p => (List.lookup "arlon-profile" p.Labels).getD "")).getD ""
         BaseCluster := some
           { Name := (List.lookup k.baseClusterNameAnnotation a.Annotations).getD ""
             RepoUrl := (List.lookup k.baseClusterRepoUrlAnnotation a.Annotations).getD ""
             RepoRevision :=
               (List.lookup k.baseClusterRepoRevisionAnnotation a.Annotations).getD ""
             RepoPath := (List.lookup k.baseClusterRepoPathAnnotation a.Annotations).getD "" }
         IsExternal := false
         SecretName := "" } : Cluster) := by
    funext a ps
    cases ps <;> rfl
  refine ⟨herr, hst, hlen, ?_, ?_, ?_⟩
  · rw [hcl, hng]
    rfl
  · rw [hcl]
    simp only [List.map_append, zipWith_nextGenRecord_names k nextGen profs hlen, List.map_map]
    congr 1
  · rw [hcl]
    have hl : (legacy.map (legacyRecord k)
        ++ List.zipWith (nextGenRecord k) nextGen profs).length
          = legacy.length + nextGen.length := by
      simp [hlen]
    rw [← hl, List.drop_left, List.map_map]
    rfl

theorem result_is_concatenation_in_pass_order_witness :
    AllAnswer sampleKeys fleetWorld () "argocd" () [prodEast sampleKeys] fleetApps fleetProfiles
      [extCluster1 sampleKeys] () ∧
    (cluster.List sampleKeys fleetWorld () "argocd" ()).err = none ∧
    (cluster.List sampleKeys fleetWorld () "argocd" ()).state = () ∧
    fleetProfiles.length = fleetApps.length ∧
    (cluster.List sampleKeys fleetWorld () "argocd" ()).clist =
      [{ Name := "prod-east", ClusterSpecName := "spec-a" },
       { Name := "multi", ProfileName := "gold", BaseCluster := some {} },
       { Name := "unlabeled", BaseCluster := some {} },
       { Name := "bare", BaseCluster := some {} },
       { Name := "remote-1", ProfileName := "silver", IsExternal := true
         SecretName := "ext-cluster-1" }] ∧
    (cluster.List sampleKeys fleetWorld () "argocd" ()).clist.map Cluster.Name =
      ["prod-east", "multi", "unlabeled", "bare", "remote-1"] ∧
    ((cluster.List sampleKeys fleetWorld () "argocd" ()).clist.drop
      ([prodEast sampleKeys].length + fleetApps.length)).map Cluster.SecretName
        = ["ext-cluster-1"] :=
  have hall : AllAnswer sampleKeys fleetWorld () "argocd" () [prodEast sampleKeys] fleetApps
      fleetProfiles [extCluster1 sampleKeys] () :=
    ⟨(), (), ⟨(), (), rfl, rfl, .cons rfl (.cons rfl (.cons rfl (.nil ())))⟩, rfl, rfl⟩
  ⟨hall, (result_is_concatenation_in_pass_order sampleKeys fleetWorld () "argocd" ()).1
    [prodEast sampleKeys] fleetApps fleetProfiles [extCluster1 sampleKeys] () hall⟩

/-- C4: if the first application query (selector
`managed-by=arlon,arlon-type=cluster`) fails with error text `e`, the run returns
the nil list and an error whose message contains "applications" and `e`; the
recorded calls are that one query and nothing else, and the collaborators are
left in the state that query put them in. -/
theorem legacy_failure_returns_at_once {σ κ : Type} (k : Keys) (w : World σ κ) (config : κ)
    (ns : String) (s0 : σ) (e : String)
    (h : (w.appList legacySelector s0).1 = Except.error e) :
    (cluster.List k w config ns s0).clist = [] ∧
    (∃ msg, (cluster.List k w config ns s0).err = some msg ∧
      Mentions msg "applications" ∧ Mentions msg e) ∧
    (cluster.List k w config ns s0).trace = [Event.appList legacySelector (.error e)] ∧
    ((cluster.List k w config ns s0).trace.filter Event.isAppList).length = 1 ∧
    (cluster.List k w config ns s0).state = (w.appList legacySelector s0).2 := by
  rcases h1 : w.appList legacySelector s0 with ⟨r1, s1⟩
  rw [h1] at h
  simp only at h
  subst h
  have hr : cluster.List k w config ns s0 =
      { clist := [], err := some ("failed to list argocd applications: " ++ e), state := s1
        trace := [Event.appList legacySelector (.error e)], logs := [] } := by
    simp [cluster.List, h1]
  rw [hr]
  exact ⟨rfl, ⟨_, rfl, mentions_of_head _ e _ (by decide), mentions_suffix _ e⟩, rfl, rfl, rfl⟩

theorem legacy_failure_returns_at_once_witness :
    (legacyDownWorld.appList legacySelector ()).1 = Except.error "connection refused" ∧
    (cluster.List sampleKeys legacyDownWorld () "argocd" ()).clist = [] ∧
    (∃ msg, (cluster.List sampleKeys legacyDownWorld () "argocd" ()).err = some msg ∧
      Mentions msg "applications" ∧ Mentions msg "connection refused") ∧
    (cluster.List sampleKeys legacyDownWorld () "argocd" ()).trace
      = [Event.appList legacySelector (.error "connection refused")] ∧
    ((cluster.List sampleKeys legacyDownWorld () "argocd" ()).trace.filter
      Event.isAppList).length = 1 ∧
    (cluster.List sampleKeys legacyDownWorld () "argocd" ()).state
      = (legacyDownWorld.appList legacySelector ()).2 :=
  ⟨rfl, legacy_failure_returns_at_once sampleKeys legacyDownWorld () "argocd" ()
    "connection refused" rfl⟩


/-- C5: `cluster.List` is all-or-nothing.  Whichever call is the first to fail, the
run returns the nil list together with an error made of a text naming the step
and the text `e` of the error the call returned, and leaves the collaborators in
the state the failed call put them in:
* the legacy query fails: `"failed to list argocd applications: " ++ e`;
* the legacy query succeeds and the next-gen query fails:
  `"failed to list next-gen clusters: " ++ e`;
* both succeed, the nested queries of the cluster-apps `done` succeed and the
  nested query of the next cluster-app `a` fails:
  `"failed to list profile apps associated with cluster " ++ a.Name ++ ": " ++ e`;
* every application query succeeds and the client construction fails:
  `"failed to get kube client: " ++ e`;
* the client construction succeeds too and the secret query fails:
  `"failed to list cluster secrets: " ++ e`.
The records of the passes already completed are not returned.  Finally a non-nil
error never comes with a non-empty list. -/
theorem failure_is_all_or_nothing {σ κ : Type} (k : Keys) (w : World σ κ) (config : κ)
    (ns : String) (s0 : σ) :
    (∀ e s1, w.appList "managed-by=arlon,arlon-type=cluster" s0 = (Except.error e, s1) →
      (cluster.List k w config ns s0).clist = [] ∧
      (cluster.List k w config ns s0).err = some ("failed to list argocd applications: " ++ e) ∧
      (cluster.List k w config ns s0).state = s1) ∧
    (∀ legacy s1 e s2,
      w.appList "managed-by=arlon,arlon-type=cluster" s0 = (Except.ok legacy, s1) →
      w.appList "managed-by=arlon,arlon-type=cluster-app" s1 = (Except.error e, s2) →
      (cluster.List k w config ns s0).clist = [] ∧
      (cluster.List k w config ns s0).err = some ("failed to list next-gen clusters: " ++ e) ∧
      (cluster.List k w config ns s0).state = s2) ∧
    (∀ legacy s1 done a rest s2 profs sm e s3,
      w.appList "managed-by=arlon,arlon-type=cluster" s0 = (Except.ok legacy, s1) →
      w.appList "managed-by=arlon,arlon-type=cluster-app" s1
        = (Except.ok (done ++ a :: rest), s2) →
      NestedAnswers w done s2 profs sm →
      w.appList ("managed-by=arlon,arlon-type=profile-app,arlon-cluster=" ++ a.Name) sm
        = (Except.error e, s3) →
      (cluster.List k w config ns s0).clist = [] ∧
      (cluster.List k w config ns s0).err =
        some ("failed to list profile apps associated with cluster " ++ a.Name ++ ": " ++ e) ∧
      (cluster.List k w config ns s0).state = s3) ∧
    (∀ legacy nextGen profs s3 e s4,
      AppQueriesAnswer w s0 legacy nextGen profs s3 →
      w.newForConfig config s3 = (some e, s4) →
      (cluster.List k w config ns s0).clist = [] ∧
      (cluster.List k w config ns s0).err = some ("failed to get kube client: " ++ e) ∧
      (cluster.List k w config ns s0).state = s4) ∧
    (∀ legacy nextGen profs s3 s4 e s5,
      AppQueriesAnswer w s0 legacy nextGen profs s3 →
      w.newForConfig config s3 = (none, s4) →
      w.secretList ns (k.argoClusterSecretTypeLabel ++ "," ++ k.externalClusterTypeLabel) s4
        = (Except.error e, s5) →
      (cluster.List k w config ns s0).clist = [] ∧
      (cluster.List k w config ns s0).err = some ("failed to list cluster secrets: " ++ e) ∧
      (cluster.List k w config ns s0).state = s5) ∧
    ((cluster.List k w config ns s0).err ≠ none → (cluster.List k w config ns s0).clist = []) := by
  refine ⟨?_, ?_, ?_, ?_, ?_, ?_⟩
  · intro e s1 h1
    rw [run_legacy_fails k w config ns s0 s1 e h1]
    exact ⟨rfl, rfl, rfl⟩
  · intro legacy s1 e s2 h1 h2
    rw [run_nextGen_fails k w config ns s0 s1 s2 legacy e h1 h2]
    exact ⟨rfl, rfl, rfl⟩
  · intro legacy s1 done a rest s2 profs sm e s3 h1 h2 hn hq
    rw [run_nested_fails k w config ns s0 s1 s2 sm s3 legacy done a rest profs e h1 h2 hn hq]
    exact ⟨rfl, rfl, rfl⟩
  · intro legacy nextGen profs s3 e s4 ha h4
    rw [run_kube_fails k w config ns s0 s3 s4 legacy nextGen profs e ha h4]
    exact ⟨rfl, rfl, rfl⟩
  · intro legacy nextGen profs s3 s4 e s5 ha h4 h5
    rw [run_secrets_fail k w config ns s0 s3 s4 s5 legacy nextGen profs e ha h4 h5]
    exact ⟨rfl, rfl, rfl⟩
  · intro hne
    rcases run_cases k w config ns s0 with ⟨herr, _⟩ | ⟨hnil, _⟩
    · exact absurd herr hne
    · exact hnil

theorem failure_is_all_or_nothing_witness :
    (legacyDownWorld.appList "managed-by=arlon,arlon-type=cluster" ()
        = (Except.error "connection refused", ()) ∧
      (cluster.List sampleKeys legacyDownWorld () "argocd" ()).clist = [] ∧
      (cluster.List sampleKeys legacyDownWorld () "argocd" ()).err
        = some ("failed to list argocd applications: " ++ "connection refused") ∧
      (cluster.List sampleKeys legacyDownWorld () "argocd" ()).state = ()) ∧
    (nextGenDownWorld.appList "managed-by=arlon,arlon-type=cluster-app" ()
        = (Except.error "permission denied", ()) ∧
      (cluster.List sampleKeys nextGenDownWorld () "argocd" ()).clist = [] ∧
      (cluster.List sampleKeys nextGenDownWorld () "argocd" ()).err
        = some ("failed to list next-gen clusters: " ++ "permission denied") ∧
      (cluster.List sampleKeys nextGenDownWorld () "argocd" ()).state = ()) ∧
    (profileDownWorld.appList "managed-by=arlon,arlon-type=profile-app,arlon-cluster=prod-west" ()
        = (Except.error "deadline exceeded", ()) ∧
      (cluster.List sampleKeys profileDownWorld () "argocd" ()).clist = [] ∧
      (cluster.List sampleKeys profileDownWorld () "argocd" ()).err
        = some ("failed to list profile apps associated with cluster "
            ++ (prodWest sampleKeys "base-1" "https://git.example/repo.git" "main"
              "clusters/base-1").Name ++ ": " ++ "deadline exceeded") ∧
      (cluster.List sampleKeys profileDownWorld () "argocd" ()).state = ()) ∧
    (kubeDownWorld.newForConfig () () = (some "invalid configuration", ()) ∧
      (cluster.List sampleKeys kubeDownWorld () "argocd" ()).clist = [] ∧
      (cluster.List sampleKeys kubeDownWorld () "argocd" ()).err
        = some ("failed to get kube client: " ++ "invalid configuration") ∧
      (cluster.List sampleKeys kubeDownWorld () "argocd" ()).state = ()) ∧
    (secretsDownWorld.secretList "argocd"
        (sampleKeys.argoClusterSecretTypeLabel ++ "," ++ sampleKeys.externalClusterTypeLabel) ()
        = (Except.error "secrets is forbidden", ()) ∧
      (cluster.List sampleKeys secretsDownWorld () "argocd" ()).clist = [] ∧
      (cluster.List sampleKeys secretsDownWorld () "argocd" ()).err
        = some ("failed to list cluster secrets: " ++ "secrets is forbidden") ∧
      (cluster.List sampleKeys secretsDownWorld () "argocd" ()).state = ()) ∧
    ((cluster.List sampleKeys profileDownWorld () "argocd" ()).err ≠ none ∧
      (cluster.List sampleKeys profileDownWorld () "argocd" ()).clist = []) :=
  ⟨⟨rfl, (failure_is_all_or_nothing sampleKeys legacyDownWorld () "argocd" ()).1
      "connection refused" () rfl⟩,
   ⟨rfl, (failure_is_all_or_nothing sampleKeys nextGenDownWorld () "argocd" ()).2.1
      [prodEast sampleKeys] () "permission denied" () rfl rfl⟩,
   ⟨rfl, (failure_is_all_or_nothing sampleKeys profileDownWorld () "argocd" ()).2.2.1
      [prodEast sampleKeys] () []
      (prodWest sampleKeys "base-1" "https://git.example/repo.git" "main" "clusters/base-1") []
      () [] () "deadline exceeded" () rfl rfl (NestedAnswers.nil ()) rfl⟩,
   ⟨rfl, (failure_is_all_or_nothing sampleKeys kubeDownWorld () "argocd" ()).2.2.2.1
      [prodEast sampleKeys]
      [prodWest sampleKeys "base-1" "https://git.example/repo.git" "main" "clusters/base-1"]
      [[goldProfileApp]] () "invalid configuration" ()
      ⟨(), (), rfl, rfl, .cons rfl (.nil ())⟩ rfl⟩,
   ⟨rfl, (failure_is_all_or_nothing sampleKeys secretsDownWorld () "argocd" ()).2.2.2.2.1
      [prodEast sampleKeys]
      [prodWest sampleKeys "base-1" "https://git.example/repo.git" "main" "clusters/base-1"]
      [[goldProfileApp]] () () "secrets is forbidden" ()
      ⟨(), (), rfl, rfl, .cons rfl (.nil ())⟩ rfl rfl⟩,
   ⟨by decide, (failure_is_all_or_nothing sampleKeys profileDownWorld () "argocd" ()).2.2.2.2.2
      (by decide)⟩⟩

/-- C6: when the collaborators answer every call, and the nested profile-app query
of the i-th cluster-app `a` returned by the next-gen query returns at least two
items `p :: q :: rest`, the run returns a nil error and the record at position
`number of legacy applications + i` has `Name = a.Name` and, as `ProfileName`,
the value stored under `arlon-profile` in the labels of the first item `p`
(`""` if `p` has no such label), whatever `q` and `rest` are. -/
theorem first_profile_app_wins {σ κ : Type} (k : Keys) (w : World σ κ) (config : κ)
    (ns : String) (s0 s5 : σ) (legacy nextGen : List Application)
    (profs : List (List Application)) (secrs : List Secret)
    (h : AllAnswer k w config ns s0 legacy nextGen profs secrs s5)
    (i : Nat) (a p q : Application) (rest : List Application)
    (ha : nextGen[i]? = some a) (hp : profs[i]? = some (p :: q :: rest)) :
    (cluster.List k w config ns s0).err = none ∧
    ∃ c, (cluster.List k w config ns s0).clist[legacy.length + i]? = some c ∧
      c.Name = a.Name ∧
      c.ProfileName = (List.lookup "arlon-profile" p.Labels).getD "" ∧
      (∀ v, List.lookup "arlon-profile" p.Labels = some v → c.ProfileName = v) := by
  obtain ⟨herr, _, _, hcl⟩ := run_of_answers k w config ns s0 s5 legacy nextGen profs secrs h
  refine ⟨herr, nextGenRecord k a (p :: q :: rest), ?_, rfl, rfl, ?_⟩
  · rw [hcl]
    exact nextGen_record_at k legacy nextGen profs secrs i a _ ha hp
  · intro v hv
    simp [nextGenRecord, profileNameOf, mapIndex, hv]

theorem first_profile_app_wins_witness :
    AllAnswer sampleKeys fleetWorld () "argocd" () [prodEast sampleKeys] fleetApps fleetProfiles
      [extCluster1 sampleKeys] () ∧
    fleetApps[0]? = some { Name := "multi" } ∧
    fleetProfiles[0]? = some
      [goldProfileApp, { Name := "multi-bronze", Labels := [("arlon-profile", "bronze")] }] ∧
    List.lookup "arlon-profile" goldProfileApp.Labels = some "gold" ∧
    (cluster.List sampleKeys fleetWorld () "argocd" ()).err = none ∧
    ∃ c, (cluster.List sampleKeys fleetWorld () "argocd" ()).clist[
        [prodEast sampleKeys].length + 0]? = some c ∧
      c.Name = "multi" ∧
      c.ProfileName = "gold" ∧
      (∀ v, List.lookup "arlon-profile" goldProfileApp.Labels = some v → c.ProfileName = v) :=
  ⟨⟨(), (), ⟨(), (), rfl, rfl, .cons rfl (.cons rfl (.cons rfl (.nil ())))⟩, rfl, rfl⟩,
   rfl, rfl, rfl,
   first_profile_app_wins sampleKeys fleetWorld () "argocd" () () [prodEast sampleKeys]
    fleetApps fleetProfiles [extCluster1 sampleKeys]
    ⟨(), (), ⟨(), (), rfl, rfl, .cons rfl (.cons rfl (.cons rfl (.nil ())))⟩, rfl, rfl⟩
    0 { Name := "multi" } goldProfileApp
    { Name := "multi-bronze", Labels := [("arlon-profile", "bronze")] } [] rfl rfl⟩

/-- The records of the run on `fleetWorld`, by name and profile: `multi`, whose
nested query returned `gold` then `bronze`, reports `gold`; `unlabeled`, whose
first profile app has no label, and `bare`, which has none, report `""`. -/
theorem fleetWorld_profiles :
    (cluster.List sampleKeys fleetWorld () "argocd" ()).clist.map
        (fun c => (c.Name, c.ProfileName)) =
      [("prod-east", ""), ("multi", "gold"), ("unlabeled", ""), ("bare", ""),
        ("remote-1", "silver")] := by
  decide

/-- C7: on every successful run the returned list is the legacy records followed
by the next-gen records followed by the external records, where every legacy
record has a nil `BaseCluster` and `IsExternal = false`, every next-gen record
has an empty `ClusterSpecName`, `IsExternal = false` and a non-nil
`BaseCluster`, and every external record has `IsExternal = true`, an empty
`ClusterSpecName` and a nil `BaseCluster`; every record of the list carries at
most one of the three source markers, and a non-empty `SecretName` only together
with `IsExternal = true`. -/
theorem source_markers_fixed_by_pass {σ κ : Type} (k : Keys) (w : World σ κ) (config : κ)
    (ns : String) (s0 : σ) (h : (cluster.List k w config ns s0).err = none) :
    ∃ legacy nextGen profs secrs, profs.length = nextGen.length ∧
      (cluster.List k w config ns s0).trace = successTrace k ns legacy nextGen profs secrs ∧
      (cluster.List k w config ns s0).clist =
        legacy.map (legacyRecord k) ++ List.zipWith (nextGenRecord k) nextGen profs
          ++ secrs.map (externalRecord k) ∧
      (∀ c ∈ legacy.map (legacyRecord k), c.BaseCluster = none ∧ c.IsExternal = false) ∧
      (∀ c ∈ List.zipWith (nextGenRecord k) nextGen profs,
        c.ClusterSpecName = "" ∧ c.IsExternal = false ∧ c.BaseCluster ≠ none) ∧
      (∀ c ∈ secrs.map (externalRecord k),
        c.IsExternal = true ∧ c.ClusterSpecName = "" ∧ c.BaseCluster = none) ∧
      (∀ c ∈ (cluster.List k w config ns s0).clist,
        markerCount c ≤ 1 ∧ (c.SecretName ≠ "" → c.IsExternal = true)) := by
  rcases run_cases k w config ns s0 with ⟨_, legacy, nextGen, profs, secrs, hlen, htr, hcl⟩
    | ⟨_, _, _, _, _, _, _, herr, _⟩
  · refine ⟨legacy, nextGen, profs, secrs, hlen, htr, hcl, ?_, ?_, ?_, ?_⟩
    · intro c hc
      rcases List.mem_map.1 hc with ⟨a, _, rfl⟩
      exact ⟨rfl, rfl⟩
    · intro c hc
      rcases mem_zipWith_nextGenRecord k c nextGen profs hc with ⟨a, ps, rfl⟩
      exact ⟨rfl, rfl, by simp [nextGenRecord]⟩
    · intro c hc
      rcases List.mem_map.1 hc with ⟨x, _, rfl⟩
      exact ⟨rfl, rfl, rfl⟩
    · intro c hc
      rw [hcl] at hc
      rcases List.mem_append.1 hc with hc | hc
      · rcases List.mem_append.1 hc with hc | hc
        · rcases List.mem_map.1 hc with ⟨a, _, rfl⟩
          exact ⟨markerCount_legacyRecord k a, fun hne => absurd rfl hne⟩
        · rcases mem_zipWith_nextGenRecord k c nextGen profs hc with ⟨a, ps, rfl⟩
          exact ⟨by simp [markerCount, nextGenRecord], fun hne => absurd rfl hne⟩
      · rcases List.mem_map.1 hc with ⟨x, _, rfl⟩
        exact ⟨by simp [markerCount, externalRecord], fun _ => rfl⟩
  · rw [h] at herr; cases herr

theorem source_markers_fixed_by_pass_witness :
    (cluster.List sampleKeys specExampleWorld () "argocd" ()).err = none ∧
    ∃ legacy nextGen profs secrs, profs.length = nextGen.length ∧
      (cluster.List sampleKeys specExampleWorld () "argocd" ()).trace
        = successTrace sampleKeys "argocd" legacy nextGen profs secrs ∧
      (cluster.List sampleKeys specExampleWorld () "argocd" ()).clist =
        legacy.map (legacyRecord sampleKeys)
          ++ List.zipWith (nextGenRecord sampleKeys) nextGen profs
          ++ secrs.map (externalRecord sampleKeys) ∧
      (∀ c ∈ legacy.map (legacyRecord sampleKeys),
        c.BaseCluster = none ∧ c.IsExternal = false) ∧
      (∀ c ∈ List.zipWith (nextGenRecord sampleKeys) nextGen profs,
        c.ClusterSpecName = "" ∧ c.IsExternal = false ∧ c.BaseCluster ≠ none) ∧
      (∀ c ∈ secrs.map (externalRecord sampleKeys),
        c.IsExternal = true ∧ c.ClusterSpecName = "" ∧ c.BaseCluster = none) ∧
      (∀ c ∈ (cluster.List sampleKeys specExampleWorld () "argocd" ()).clist,
        markerCount c ≤ 1 ∧ (c.SecretName ≠ "" → c.IsExternal = true)) :=
  ⟨by decide, source_markers_fixed_by_pass sampleKeys specExampleWorld () "argocd" ()
    (by decide)⟩


/-- C8: the spec's example.  When the legacy query returns the one application
`prod-east` annotated with cluster spec `spec-a`, the next-gen query returns the
one application `prod-west` carrying the four base-cluster annotations (under
four distinct keys), its nested query returns one application labeled
`arlon-profile=gold`, the client construction succeeds and the secret query
returns the one secret `ext-cluster-1` with data `name = remote-1` and profile
annotation `silver`, the run returns a nil error and exactly three records in
this order: `prod-east` with `ClusterSpecName = spec-a`, nil `BaseCluster`,
`IsExternal = false`; `prod-west` with `ProfileName = gold` and the four
annotation values in `BaseCluster`; `remote-1` with `ProfileName = silver`,
`IsExternal = true`, `SecretName = ext-cluster-1`.  (When the cluster-spec and
profile annotation keys differ, the first record's `ProfileName` is empty.) -/
theorem spec_example_three_records {σ κ : Type} (k : Keys) (w : World σ κ) (config : κ)
    (ns : String) (s0 s1 s2 s3 s4 s5 : σ) (baseName repoUrl repoRevision repoPath : String)
    (hkeys : [k.baseClusterNameAnnotation, k.baseClusterRepoUrlAnnotation,
      k.baseClusterRepoRevisionAnnotation, k.baseClusterRepoPathAnnotation].Nodup)
    (h1 : w.appList legacySelector s0 = (.ok [prodEast k], s1))
    (h2 : w.appList nextGenSelector s1
      = (.ok [prodWest k baseName repoUrl repoRevision repoPath], s2))
    (h3 : w.appList (profileAppSelector "prod-west") s2 = (.ok [goldProfileApp], s3))
    (h4 : w.newForConfig config s3 = (none, s4))
    (h5 : w.secretList ns (secretSelector k) s4 = (.ok [extCluster1 k], s5)) :
    (cluster.List k w config ns s0).err = none ∧
    ∃ c1, (cluster.List k w config ns s0).clist =
        [c1,
         { Name := "prod-west", ProfileName := "gold"
           BaseCluster := some { Name := baseName, RepoUrl := repoUrl
                                 RepoRevision := repoRevision, RepoPath := repoPath }
           IsExternal := false },
         { Name := "remote-1", ProfileName := "silver", IsExternal := true
           SecretName := "ext-cluster-1" }] ∧
      c1.Name = "prod-east" ∧ c1.ClusterSpecName = "spec-a" ∧ c1.BaseCluster = none ∧
      c1.IsExternal = false ∧
      (k.ClusterSpecAnnotationKey ≠ k.ProfileAnnotationKey →
        c1 = { Name := "prod-east", ClusterSpecName := "spec-a" }) := by
  have h5' : w.secretList ns
      (k.argoClusterSecretTypeLabel ++ "," ++ k.externalClusterTypeLabel) s4
        = (.ok [extCluster1 k], s5) := h5
  have h3' : w.appList (profileAppSelector
      (prodWest k baseName repoUrl repoRevision repoPath).Name) s2
        = (.ok [goldProfileApp], s3) := h3
  have hr : cluster.List k w config ns s0 =
      { clist := [legacyRecord k (prodEast k),
          nextGenRecord k (prodWest k baseName repoUrl repoRevision repoPath) [goldProfileApp],
          externalRecord k (extCluster1 k)]
        err := none, state := s5
        trace := successTrace k ns [prodEast k]
          [prodWest k baseName repoUrl repoRevision repoPath] [[goldProfileApp]] [extCluster1 k]
        logs := [] } := by
    simp [cluster.List, h1, h2, nextGenPass, h3', h4, h5', legacyPass, externalPass,
      successTrace, secretSelector, profileAppEvent, dataIndex, extCluster1]
  simp only [List.nodup_cons, List.mem_cons, List.mem_singleton, List.not_mem_nil, not_or,
    or_false, List.nodup_nil, and_true, not_false_eq_true] at hkeys
  obtain ⟨⟨h12, h13, h14⟩, ⟨h23, h24⟩, h34⟩ := hkeys
  rw [hr]
  refine ⟨rfl, legacyRecord k (prodEast k), ?_, rfl, ?_, rfl, rfl, ?_⟩
  · have e2 : nextGenRecord k (prodWest k baseName repoUrl repoRevision repoPath)
        [goldProfileApp] =
          { Name := "prod-west", ProfileName := "gold"
            BaseCluster := some { Name := baseName, RepoUrl := repoUrl
                                  RepoRevision := repoRevision, RepoPath := repoPath }
            IsExternal := false } := by
      simp only [nextGenRecord, prodWest, mapIndex, lookup_cons_self,
        lookup_cons_ne _ _ _ _ (Ne.symm h12), lookup_cons_ne _ _ _ _ (Ne.symm h13),
        lookup_cons_ne _ _ _ _ (Ne.symm h14), lookup_cons_ne _ _ _ _ (Ne.symm h23),
        lookup_cons_ne _ _ _ _ (Ne.symm h24), lookup_cons_ne _ _ _ _ (Ne.symm h34),
        Option.getD_some]
      rfl
    have e3 : externalRecord k (extCluster1 k) =
        { Name := "remote-1", ProfileName := "silver", IsExternal := true
          SecretName := "ext-cluster-1" } := by
      simp only [externalRecord, extCluster1, dataIndex, bytesToString, mapIndex,
        lookup_cons_self, Option.getD_some]
    rw [e2, e3]
  · simp only [legacyRecord, prodEast, mapIndex, lookup_cons_self, Option.getD_some]
  · intro hne
    simp only [legacyRecord, prodEast, mapIndex, lookup_cons_self,
      lookup_cons_ne _ _ _ _ (Ne.symm hne), Option.getD_some]
    rfl

theorem spec_example_three_records_witness :
    [sampleKeys.baseClusterNameAnnotation, sampleKeys.baseClusterRepoUrlAnnotation,
      sampleKeys.baseClusterRepoRevisionAnnotation,
      sampleKeys.baseClusterRepoPathAnnotation].Nodup ∧
    specExampleWorld.appList legacySelector () = (.ok [prodEast sampleKeys], ()) ∧
    specExampleWorld.appList nextGenSelector () =
      (.ok [prodWest sampleKeys "base-1" "https://git.example/repo.git" "main"
        "clusters/base-1"], ()) ∧
    specExampleWorld.appList (profileAppSelector "prod-west") () = (.ok [goldProfileApp], ()) ∧
    specExampleWorld.newForConfig () () = (none, ()) ∧
    specExampleWorld.secretList "argocd" (secretSelector sampleKeys) ()
      = (.ok [extCluster1 sampleKeys], ()) ∧
    (cluster.List sampleKeys specExampleWorld () "argocd" ()).err = none ∧
    ∃ c1, (cluster.List sampleKeys specExampleWorld () "argocd" ()).clist =
        [c1,
         { Name := "prod-west", ProfileName := "gold"
           BaseCluster := some { Name := "base-1", RepoUrl := "https://git.example/repo.git"
                                 RepoRevision := "main", RepoPath := "clusters/base-1" }
           IsExternal := false },
         { Name := "remote-1", ProfileName := "silver", IsExternal := true
           SecretName := "ext-cluster-1" }] ∧
      c1.Name = "prod-east" ∧ c1.ClusterSpecName = "spec-a" ∧ c1.BaseCluster = none ∧
      c1.IsExternal = false ∧
      (sampleKeys.ClusterSpecAnnotationKey ≠ sampleKeys.ProfileAnnotationKey →
        c1 = { Name := "prod-east", ClusterSpecName := "spec-a" }) :=
  ⟨by decide, rfl, rfl, rfl, rfl, rfl,
    spec_example_three_records sampleKeys specExampleWorld () "argocd" () () () () () ()
      "base-1" "https://git.example/repo.git" "main" "clusters/base-1"
      (by decide) rfl rfl rfl rfl rfl⟩

/-- The four checks other than `verifyCapi` return `(true, nil)` or `false` with a
declared sentinel, whatever the external commands do. -/
theorem verify_checks_return_sentinels (h : verify.Host) :
    ∀ r ∈ [verify.verifyKubectl h, verify.verifyArgoCD h, verify.verifyGit h,
        verify.verifyArlon h],
      r = (true, none) ∨ ∃ e, r = (false, some e) ∧ verify.GoError.isSentinel e = true := by
  intro r hr
  simp only [List.mem_cons, List.mem_singleton, List.not_mem_nil, or_false] at hr
  rcases hr with rfl | rfl | rfl | rfl
  · unfold verify.verifyKubectl
    cases h.lookPath "kubectl" <;> cases h.output ["kubectl", "cluster-info"] <;> simp <;> rfl
  · unfold verify.verifyArgoCD
    cases h.lookPath "argocd" <;> cases h.output ["argocd", "account", "list"] <;> simp <;> rfl
  · unfold verify.verifyGit
    cases h.lookPath "git" with
    | none => simp
    | some _ => simp; rfl
  · unfold verify.verifyArlon
    cases h.pipeOutput ["kubectl", "get", "ns"] ["grep", "arlon"] with
    | none => simp
    | some _ => simp; rfl

/-- The outcomes of `verifyCapi`: `(true, nil)`, `(false, ErrCapi)`, or `false` with
the `os/exec` error of the `capa-system` check; `ErrCapiCP` is never returned. -/
theorem verifyCapi_outcomes (h : verify.Host) :
    (verify.verifyCapi h = (true, none) ∨
      verify.verifyCapi h = (false, some verify.GoError.ErrCapi) ∨
      ∃ text, h.pipeOutput ["kubectl", "get", "ns"] ["grep", "capa-system"] = some text ∧
        verify.verifyCapi h = (false, some (verify.GoError.exec text))) ∧
    verify.verifyCapi h ≠ (false, some verify.GoError.ErrCapiCP) := by
  unfold verify.verifyCapi verify.checkCapaCloudProvider verify.checkCapzCloudProvider
  cases h.pipeOutput ["kubectl", "api-versions"] ["grep", "infrastructure.cluster.x-k8s.io"] <;>
    cases h.pipeOutput ["kubectl", "get", "ns"] ["grep", "capa-system"] <;>
    cases h.pipeOutput ["kubectl", "get", "ns"] ["grep", "capz-system"] <;> simp

/-- C9, evaluated on the code: on `hostWithoutProvider` the CAPI api-version is
found and neither the `capa-system` nor the `capz-system` namespace is;
`verifyCapi` returns `false` together with the `os/exec` error of the first
provider check, which is not a sentinel and in particular not `ErrCapiCP`. -/
theorem verifyCapi_returns_exec_error :
    verify.hostWithoutProvider.pipeOutput ["kubectl", "api-versions"]
      ["grep", "infrastructure.cluster.x-k8s.io"] = none ∧
    verify.checkCapaCloudProvider verify.hostWithoutProvider ≠ none ∧
    verify.checkCapzCloudProvider verify.hostWithoutProvider ≠ none ∧
    verify.verifyCapi verify.hostWithoutProvider
      = (false, some (verify.GoError.exec "exit status 1")) ∧
    verify.GoError.isSentinel (verify.GoError.exec "exit status 1") = false ∧
    verify.verifyCapi verify.hostWithoutProvider ≠ (false, some verify.GoError.ErrCapiCP) := by
  refine ⟨by decide, by decide, by decide, by decide, rfl, by decide⟩

/-- C10: when the collaborators answer every call, and the nested query of the
i-th cluster-app `a` returned by the next-gen query returns no item, or a first
item without the `arlon-profile` label (whatever follows it), the run returns a
nil error and the record at position `number of legacy applications + i` is
emitted all the same, with `Name = a.Name`, the empty `ProfileName`, and a
non-nil `BaseCluster` whose four fields are the corresponding annotations of
`a`, each `""` when the annotation is absent. -/
theorem profile_name_from_first_item_only {σ κ : Type} (k : Keys) (w : World σ κ) (config : κ)
    (ns : String) (s0 s5 : σ) (legacy nextGen : List Application)
    (profs : List (List Application)) (secrs : List Secret)
    (h : AllAnswer k w config ns s0 legacy nextGen profs secrs s5)
    (i : Nat) (a : Application) (ps : List Application)
    (ha : nextGen[i]? = some a) (hp : profs[i]? = some ps)
    (hps : ps = [] ∨ ∃ p rest, ps = p :: rest ∧ List.lookup "arlon-profile" p.Labels = none) :
    (cluster.List k w config ns s0).err = none ∧
    (cluster.List k w config ns s0).clist[legacy.length + i]? = some
      { Name := a.Name
        ClusterSpecName := ""
        ProfileName := ""
        BaseCluster := some
          { Name := (List.lookup k.baseClusterNameAnnotation a.Annotations).getD ""
            RepoUrl := (List.lookup k.baseClusterRepoUrlAnnotation a.Annotations).getD ""
            RepoRevision :=
              (List.lookup k.baseClusterRepoRevisionAnnotation a.Annotations).getD ""
            RepoPath := (List.lookup k.baseClusterRepoPathAnnotation a.Annotations).getD "" }
        IsExternal := false
        SecretName := "" } := by
  obtain ⟨herr, _, _, hcl⟩ := run_of_answers k w config ns s0 s5 legacy nextGen profs secrs h
  refine ⟨herr, ?_⟩
  rw [hcl, nextGen_record_at k legacy nextGen profs secrs i a ps ha hp]
  rcases hps with rfl | ⟨p, rest, rfl, hlab⟩
  · rfl
  · simp [nextGenRecord, profileNameOf, mapIndex, hlab]

theorem profile_name_from_first_item_only_witness :
    AllAnswer sampleKeys fleetWorld () "argocd" () [prodEast sampleKeys] fleetApps fleetProfiles
      [extCluster1 sampleKeys] () ∧
    (fleetApps[1]? = some { Name := "unlabeled" } ∧
      fleetProfiles[1]? = some [{ Name := "unlabeled-1" }, goldProfileApp] ∧
      (cluster.List sampleKeys fleetWorld () "argocd" ()).err = none ∧
      (cluster.List sampleKeys fleetWorld () "argocd" ()).clist[
          [prodEast sampleKeys].length + 1]? = some
        { Name := "unlabeled", ClusterSpecName := "", ProfileName := ""
          BaseCluster := some { Name := "", RepoUrl := "", RepoRevision := "", RepoPath := "" }
          IsExternal := false, SecretName := "" }) ∧
    (fleetApps[2]? = some { Name := "bare" } ∧
      fleetProfiles[2]? = some [] ∧
      (cluster.List sampleKeys fleetWorld () "argocd" ()).err = none ∧
      (cluster.List sampleKeys fleetWorld () "argocd" ()).clist[
          [prodEast sampleKeys].length + 2]? = some
        { Name := "bare", ClusterSpecName := "", ProfileName := ""
          BaseCluster := some { Name := "", RepoUrl := "", RepoRevision := "", RepoPath := "" }
          IsExternal := false, SecretName := "" }) :=
  have hall : AllAnswer sampleKeys fleetWorld () "argocd" () [prodEast sampleKeys] fleetApps
      fleetProfiles [extCluster1 sampleKeys] () :=
    ⟨(), (), ⟨(), (), rfl, rfl, .cons rfl (.cons rfl (.cons rfl (.nil ())))⟩, rfl, rfl⟩
  ⟨hall,
   ⟨rfl, rfl,
    profile_name_from_first_item_only sampleKeys fleetWorld () "argocd" () ()
      [prodEast sampleKeys] fleetApps fleetProfiles [extCluster1 sampleKeys] hall
      1 { Name := "unlabeled" } [{ Name := "unlabeled-1" }, goldProfileApp] rfl rfl
      (Or.inr ⟨{ Name := "unlabeled-1" }, [goldProfileApp], rfl, rfl⟩)⟩,
   ⟨rfl, rfl,
    profile_name_from_first_item_only sampleKeys fleetWorld () "argocd" () ()
      [prodEast sampleKeys] fleetApps fleetProfiles [extCluster1 sampleKeys] hall
      2 { Name := "bare" } [] rfl rfl (Or.inl rfl)⟩⟩

end Arlon
